import Mathlib

set_option maxRecDepth 100000

/-!
Verification of the classification engine of the milled-india backend.

The Python sources embedded here are `engine.py` (brand extraction, industry
and campaign-type classification, the brand-classification cache write) and
`backend/ai_classifier.py` (validation of the external-AI response), together
with the `BrandClassification` model of `backend/models.py`.

Modelling conventions:
* Python strings are Lean `String`s; `str.lower()` is ASCII-lowering
  (`Char.toLower`), which agrees with Python on the ASCII keyword tables used
  by the engine.
* Arguments that the source treats by truthiness (`if subject:`) are plain
  `String`s with `""` playing the role of both `None` and the empty string:
  the source never distinguishes the two for these arguments.
* The `html` arguments of the classifiers are modelled as the visible text
  that `BeautifulSoup(...).get_text(separator=" ")` returns for the HTML
  (a library boundary); a parse failure, swallowed by `try/except` in the
  source, corresponds to the empty string (no contribution).
* SQLAlchemy floats (`confidence`) are exact rationals; the source only ever
  stores, copies and compares them, never computes with them, and every value
  involved (0, 0.5, 0.7, 0.8, 0.9, 1.0) is exactly representable.
* Kernel-computable rationals are written with an explicit
  numerator/denominator constructor (`ratLit`) because `Rat.ofScientific`
  and `Rat.div` do not reduce in the kernel.
-/

/-! ## Python string primitives -/

/-- Python `str.lower()` (ASCII case folding, see conventions above). -/
def pyLower (s : String) : String := ⟨s.data.map Char.toLower⟩

/-- Python `s[:n]` on strings (first `n` code points). -/
def pyTake (n : Nat) (s : String) : String := ⟨s.data.take n⟩

/-- Whether `pat` occurs as a contiguous sublist of `s`. -/
def infixCL (pat : List Char) : List Char → Bool
  | [] => pat.isEmpty
  | c :: t => List.isPrefixOf pat (c :: t) || infixCL pat t

/-- Python `needle in hay` on strings. -/
def pyIn (needle hay : String) : Bool := infixCL needle.data hay.data

/-- Python whitespace test for the `\s` class (ASCII subset, enough for the
engine's inputs of interest). -/
def isWs (c : Char) : Bool := c.isWhitespace

/-- Python `\w` word-character class (ASCII subset). -/
def isWordChar (c : Char) : Bool := c.isAlphanum || c = '_'

/-- Strip whitespace from both ends of a char list. -/
def stripCL (l : List Char) : List Char :=
  ((l.dropWhile isWs).reverse.dropWhile isWs).reverse

/-- Python `str.strip()`. -/
def pyStrip (s : String) : String := ⟨stripCL s.data⟩

/-- Python `str.strip(c)` for a single character `c`. -/
def pyStripChar (c : Char) (s : String) : String :=
  ⟨((s.data.dropWhile (· = c)).reverse.dropWhile (· = c)).reverse⟩

/-- Python `str.lstrip(c)` for a single character `c`. -/
def pyLstripChar (c : Char) (s : String) : String := ⟨s.data.dropWhile (· = c)⟩

/-- One step of whitespace-run collapsing (`re.sub(r'\s+', ' ', s)`); the
flag records whether the previous character was part of a whitespace run. -/
def collapseWsGo : List Char → Bool → List Char
  | [], _ => []
  | c :: t, prevWs =>
    if isWs c then
      if prevWs then collapseWsGo t true else ' ' :: collapseWsGo t true
    else c :: collapseWsGo t false

/-- `re.sub(r'\s+', ' ', s)`. -/
def collapseWs (s : String) : String := ⟨collapseWsGo s.data false⟩

/-- One step of Python `str.title()`; the flag records whether the previous
character was alphabetic (cased). -/
def titleGo : List Char → Bool → List Char
  | [], _ => []
  | c :: t, prevAlpha =>
    (if c.isAlpha then (if prevAlpha then c.toLower else c.toUpper) else c)
      :: titleGo t c.isAlpha

/-- Python `str.title()`. -/
def pyTitle (s : String) : String := ⟨titleGo s.data false⟩

theorem dropWhile_length_le (p : Char → Bool) (l : List Char) :
    (l.dropWhile p).length ≤ l.length := by
  induction l with
  | nil => simp [List.dropWhile]
  | cons c t ih =>
    simp only [List.dropWhile]
    split
    · exact Nat.le_trans ih (Nat.le_succ _)
    · exact Nat.le_refl _

/-- Python `str.split()` (split on whitespace runs, dropping empties).  The
`fuel` argument is a pure termination device (the well-founded measure, here
the length of the remaining list, does not kernel-reduce when compiled to
`WellFounded.fix`); callers pass fuel strictly larger than the measure, so
the `0` branch is never reached. -/
def splitWsGo (fuel : Nat) (l : List Char) : List (List Char) :=
  match fuel with
  | 0 => []
  | fuel + 1 =>
    match l with
    | [] => []
    | c :: t =>
      if isWs c then splitWsGo fuel t
      else
        (c :: t).takeWhile (fun x => !isWs x)
          :: splitWsGo fuel (t.dropWhile (fun x => !isWs x))

/-- Python `str.split()` on strings. -/
def pySplitWs (s : String) : List String :=
  (splitWsGo (s.data.length + 1) s.data).map (⟨·⟩)

/-- Python `" ".join(parts)`. -/
def joinSpace : List String → String
  | [] => ""
  | [s] => s
  | s :: rest => s ++ " " ++ joinSpace rest

/-- A kernel-computable rational literal (see conventions above). -/
def ratLit (n : Int) (d : Nat) (h1 : d ≠ 0) (h2 : n.natAbs.Coprime d) : ℚ :=
  ⟨n, d, h1, h2⟩

theorem titleGo_length (l : List Char) : ∀ b, (titleGo l b).length = l.length := by
  induction l with
  | nil => intro b; rfl
  | cons c t ih => intro b; simp [titleGo, ih]

theorem pyTitle_length (s : String) : (pyTitle s).length = s.length :=
  titleGo_length s.data false

/-! ## A small matcher for the fixed regular expressions of the source

The engine's `re.sub` patterns only use literals, small character classes,
`\s*`, `\s+`, `\w+`, optional single characters (`\.?`, `s?`, `,?`), word
boundaries `\b`, the end anchor `$` and top-level alternation.  They are
represented as lists of tokens (one token list per alternative); matching is
greedy, with explicit backtracking for the optional-character token (the only
place the source patterns need it: every `\s*`/`\s+`/`\w+` is followed by a
token that cannot consume the same characters). -/

inductive RTok where
  /-- a literal, compared case-insensitively (the source compiles every
  pattern with `re.IGNORECASE` or applies it to lowercased text) -/
  | lit (cs : List Char)
  /-- one character out of a class -/
  | cls (cs : List Char)
  /-- zero or more whitespace characters, greedy -/
  | ws0
  /-- one or more whitespace characters, greedy -/
  | ws1
  /-- zero or more word characters, greedy (internal, used to run `word1`) -/
  | word0
  /-- one or more word characters, greedy -/
  | word1
  /-- an optional single character (with backtracking) -/
  | opt (c : Char)
  /-- a word boundary assertion -/
  | bdry
  /-- the end-of-string anchor -/
  | eos
deriving DecidableEq

/-- Consume a case-insensitive literal, returning the remainder and the last
consumed character. -/
def litConsume : List Char → List Char → Option Char → Option (List Char × Option Char)
  | [], s, last => some (s, last)
  | _ :: _, [], _ => none
  | p :: ps, c :: t, last =>
    if p.toLower = c.toLower then litConsume ps t (some c) else (fun _ => none) last

theorem litConsume_length :
    ∀ (cs s : List Char) (last : Option Char) (r : List Char × Option Char),
      litConsume cs s last = some r → r.1.length ≤ s.length := by
  intro cs
  induction cs with
  | nil =>
    intro s last r h
    simp only [litConsume, Option.some.injEq] at h
    exact h ▸ Nat.le_refl _
  | cons p ps ih =>
    intro s last r h
    match s with
    | [] => simp [litConsume] at h
    | c :: t =>
      simp only [litConsume] at h
      split at h
      · exact Nat.le_trans (ih t (some c) r h) (Nat.le_succ _)
      · simp at h

/-- Match a token sequence against `s`; `prev` is the character immediately
before the current position in the original string (for `\b`).  Returns the
remainder of the string after the match.  `fuel` is the termination device
described at `splitWsGo`; every recursive call strictly decreases the measure
`2 * toks.length + s.length`, and callers pass fuel above it. -/
def matchSeq (fuel : Nat) (toks : List RTok) (prev : Option Char)
    (s : List Char) : Option (List Char) :=
  match fuel with
  | 0 => none
  | fuel + 1 =>
    match toks, s with
    | [], s => some s
    | RTok.lit cs :: rest, s =>
      match litConsume cs s prev with
      | some (s', last) => matchSeq fuel rest last s'
      | none => none
    | RTok.cls cs :: rest, c :: t =>
      if cs.contains c then matchSeq fuel rest (some c) t else none
    | RTok.cls _ :: _, [] => none
    | RTok.ws0 :: rest, c :: t =>
      if isWs c then matchSeq fuel (RTok.ws0 :: rest) (some c) t
      else matchSeq fuel rest prev (c :: t)
    | RTok.ws0 :: rest, [] => matchSeq fuel rest prev []
    | RTok.ws1 :: rest, c :: t =>
      if isWs c then matchSeq fuel (RTok.ws0 :: rest) (some c) t else none
    | RTok.ws1 :: _, [] => none
    | RTok.word0 :: rest, c :: t =>
      if isWordChar c then matchSeq fuel (RTok.word0 :: rest) (some c) t
      else matchSeq fuel rest prev (c :: t)
    | RTok.word0 :: rest, [] => matchSeq fuel rest prev []
    | RTok.word1 :: rest, c :: t =>
      if isWordChar c then matchSeq fuel (RTok.word0 :: rest) (some c) t
      else none
    | RTok.word1 :: _, [] => none
    | RTok.opt c :: rest, x :: t =>
      if c.toLower = x.toLower then
        match matchSeq fuel rest (some x) t with
        | some r => some r
        | none => matchSeq fuel rest prev (x :: t)
      else matchSeq fuel rest prev (x :: t)
    | RTok.opt _ :: rest, [] => matchSeq fuel rest prev []
    | RTok.bdry :: rest, s =>
      let prevWord := match prev with | some p => isWordChar p | none => false
      let nextWord := match s with | c :: _ => isWordChar c | [] => false
      if prevWord ≠ nextWord then matchSeq fuel rest prev s else none
    | RTok.eos :: rest, [] => matchSeq fuel rest prev []
    | RTok.eos :: _, _ :: _ => none

/-- Match a token sequence with sufficient fuel. -/
def matchToks (toks : List RTok) (prev : Option Char) (s : List Char) :
    Option (List Char) :=
  matchSeq (2 * toks.length + s.length + 1) toks prev s

/-- Try the alternatives of a pattern in order at the current position. -/
def tryAlts (alts : List (List RTok)) (prev : Option Char) (s : List Char) :
    Option (List Char) :=
  match alts with
  | [] => none
  | a :: rest =>
    match matchToks a prev s with
    | some r => some r
    | none => tryAlts rest prev s

/-- Scanner for `re.sub(pattern, '', s)`: try the pattern at every position,
left to right, dropping each match and continuing after it.  `prev` is the
character preceding the current position in the original string (word
boundaries are judged on the original text, exactly as `re.sub` does).  The
source patterns never match the empty string; if one somehow did, the scanner
keeps the character and moves on. -/
def pySubGo (fuel : Nat) (alts : List (List RTok)) (prev : Option Char)
    (s : List Char) : List Char :=
  match fuel with
  | 0 => s
  | fuel + 1 =>
    match s with
    | [] => []
    | c :: t =>
      match tryAlts alts prev (c :: t) with
      | some rest =>
        if rest.length < (c :: t).length then
          pySubGo fuel alts
            (((c :: t).take ((c :: t).length - rest.length)).getLast?) rest
        else c :: pySubGo fuel alts (some c) t
      | none => c :: pySubGo fuel alts (some c) t

/-- `re.sub(pattern, '', s)` for an unanchored pattern. -/
def pySub (alts : List (List RTok)) (s : String) : String :=
  ⟨pySubGo (s.data.length + 1) alts none s.data⟩

/-- `re.sub(pattern, '', s)` for a pattern anchored at the start (`^...`):
it can only ever match once, at position zero. -/
def pySubAnchored (alts : List (List RTok)) (s : String) : String :=
  match tryAlts alts none s.data with
  | some rest => ⟨rest⟩
  | none => s

/-- Shorthand for a `\bword\b` alternative. -/
def wAlt (s : String) : List RTok := [RTok.bdry, RTok.lit s.data, RTok.bdry]

/-! ## engine.py: brand-name normalization for the mapping lookup

`BRAND_SUFFIXES_TO_STRIP` and `normalize_brand_name` (engine.py lines
140-164). -/

/-- The separator class `[-–—_,]` of the suffix patterns. -/
def sepCls : RTok := RTok.cls ['-', '–', '—', '_', ',']

/-- `BRAND_SUFFIXES_TO_STRIP`, one entry per source regex, in source order;
alternations are expanded into one token list per alternative. -/
def BRAND_SUFFIXES_TO_STRIP : List (List (List RTok)) :=
  [ -- r'\s*[-–—_,]\s*a\s+tata\s+product'
    [[RTok.ws0, sepCls, RTok.ws0, RTok.lit "a".data, RTok.ws1,
      RTok.lit "tata".data, RTok.ws1, RTok.lit "product".data]],
    -- r'\s*[-–—_,]\s*a\s+tanishq\s+partnership'
    [[RTok.ws0, sepCls, RTok.ws0, RTok.lit "a".data, RTok.ws1,
      RTok.lit "tanishq".data, RTok.ws1, RTok.lit "partnership".data]],
    -- r'\s*[-–—_,]\s*a\s+godrej\s+\w+\s+brand'
    [[RTok.ws0, sepCls, RTok.ws0, RTok.lit "a".data, RTok.ws1,
      RTok.lit "godrej".data, RTok.ws1, RTok.word1, RTok.ws1,
      RTok.lit "brand".data]],
    -- r'\s*,?\s*a\s+\w+\s+(brand|product|partnership)'
    [[RTok.ws0, RTok.opt ',', RTok.ws0, RTok.lit "a".data, RTok.ws1,
      RTok.word1, RTok.ws1, RTok.lit "brand".data],
     [RTok.ws0, RTok.opt ',', RTok.ws0, RTok.lit "a".data, RTok.ws1,
      RTok.word1, RTok.ws1, RTok.lit "product".data],
     [RTok.ws0, RTok.opt ',', RTok.ws0, RTok.lit "a".data, RTok.ws1,
      RTok.word1, RTok.ws1, RTok.lit "partnership".data]],
    -- r'\s+(sale|promotion|promotions|rewards|new arrivals|black friday|cyber monday)$'
    [[RTok.ws1, RTok.lit "sale".data, RTok.eos],
     [RTok.ws1, RTok.lit "promotion".data, RTok.eos],
     [RTok.ws1, RTok.lit "promotions".data, RTok.eos],
     [RTok.ws1, RTok.lit "rewards".data, RTok.eos],
     [RTok.ws1, RTok.lit "new arrivals".data, RTok.eos],
     [RTok.ws1, RTok.lit "black friday".data, RTok.eos],
     [RTok.ws1, RTok.lit "cyber monday".data, RTok.eos]],
    -- r'\s+at\s+\w+$'      ("Maeve At Brooklinen")
    [[RTok.ws1, RTok.lit "at".data, RTok.ws1, RTok.word1, RTok.eos]],
    -- r'\s+by\s+\w+$'      ("Maeve By Anthropologie")
    [[RTok.ws1, RTok.lit "by".data, RTok.ws1, RTok.word1, RTok.eos]],
    -- r'\+\s*clinic$'       ("Supertails+ Clinic")
    [[RTok.lit "+".data, RTok.ws0, RTok.lit "clinic".data, RTok.eos]] ]

/-- `normalize_brand_name` (engine.py lines 152-164): lowercase, strip, then
strip each suffix pattern in order (re-stripping whitespace after each). -/
def normalize_brand_name (brand : String) : String :=
  if brand = "" then ""
  else
    BRAND_SUFFIXES_TO_STRIP.foldl (fun acc pat => pyStrip (pySub pat acc))
      (pyStrip (pyLower brand))

theorem normalize_caratlane :
    normalize_brand_name "Caratlane - A Tata Product" = "caratlane" := by decide

/-! ## engine.py: clean_brand_name (lines 1190-1224) -/

/-- r'\b(newsletter|mailer|noreply|no-reply|donotreply|mail|email|emails)\b' -/
def cleanPat1 : List (List RTok) :=
  [wAlt "newsletter", wAlt "mailer", wAlt "noreply", wAlt "no-reply",
   wAlt "donotreply", wAlt "mail", wAlt "email", wAlt "emails"]

/-- r'\b(support|help|info|contact|team|official|india|global)\b' -/
def cleanPat2 : List (List RTok) :=
  [wAlt "support", wAlt "help", wAlt "info", wAlt "contact", wAlt "team",
   wAlt "official", wAlt "india", wAlt "global"]

/-- r'\b(notifications?|updates?|alerts?|digest)\b' -/
def cleanPat3 : List (List RTok) :=
  [[RTok.bdry, RTok.lit "notification".data, RTok.opt 's', RTok.bdry],
   [RTok.bdry, RTok.lit "update".data, RTok.opt 's', RTok.bdry],
   [RTok.bdry, RTok.lit "alert".data, RTok.opt 's', RTok.bdry],
   wAlt "digest"]

/-- r'\b(pvt\.?\s*ltd\.?|private\s*limited|limited|llp|inc\.?|corp\.?)\b' -/
def cleanPat4 : List (List RTok) :=
  [[RTok.bdry, RTok.lit "pvt".data, RTok.opt '.', RTok.ws0,
    RTok.lit "ltd".data, RTok.opt '.', RTok.bdry],
   [RTok.bdry, RTok.lit "private".data, RTok.ws0, RTok.lit "limited".data,
    RTok.bdry],
   wAlt "limited", wAlt "llp",
   [RTok.bdry, RTok.lit "inc".data, RTok.opt '.', RTok.bdry],
   [RTok.bdry, RTok.lit "corp".data, RTok.opt '.', RTok.bdry]]

/-- r'\b(customer\s*service|customer\s*care)\b' -/
def cleanPat5 : List (List RTok) :=
  [[RTok.bdry, RTok.lit "customer".data, RTok.ws0, RTok.lit "service".data,
    RTok.bdry],
   [RTok.bdry, RTok.lit "customer".data, RTok.ws0, RTok.lit "care".data,
    RTok.bdry]]

/-- r'^(hi|hello|dear|from|the)\s+' (anchored at the start) -/
def cleanPatGreeting : List (List RTok) :=
  [[RTok.lit "hi".data, RTok.ws1], [RTok.lit "hello".data, RTok.ws1],
   [RTok.lit "dear".data, RTok.ws1], [RTok.lit "from".data, RTok.ws1],
   [RTok.lit "the".data, RTok.ws1]]

/-- r'\s+(team|crew|family|club)$' -/
def cleanPatTrailing : List (List RTok) :=
  [[RTok.ws1, RTok.lit "team".data, RTok.eos],
   [RTok.ws1, RTok.lit "crew".data, RTok.eos],
   [RTok.ws1, RTok.lit "family".data, RTok.eos],
   [RTok.ws1, RTok.lit "club".data, RTok.eos]]

/-- Strip non-alphanumeric characters from both edges:
r'^[^a-zA-Z0-9]+|[^a-zA-Z0-9]+$' substituted by `''`. -/
def stripNonAlnumEdges (s : String) : String :=
  ⟨((s.data.dropWhile (fun c => !c.isAlphanum)).reverse.dropWhile
      (fun c => !c.isAlphanum)).reverse⟩

/-- `clean_brand_name` (engine.py lines 1190-1224): strip boilerplate words
via the ordered substitution list, collapse whitespace, trim non-alphanumeric
edges, drop results shorter than 2 characters, title-case. -/
def clean_brand_name (name : String) : Option String :=
  if name = "" then none
  else
    let cleaned := pyStrip name
    let cleaned := pySub cleanPat1 cleaned
    let cleaned := pySub cleanPat2 cleaned
    let cleaned := pySub cleanPat3 cleaned
    let cleaned := pySub cleanPat4 cleaned
    let cleaned := pySub cleanPat5 cleaned
    let cleaned := pySubAnchored cleanPatGreeting cleaned
    let cleaned := pySub cleanPatTrailing cleaned
    let cleaned := pyStrip (collapseWs cleaned)
    let cleaned := stripNonAlnumEdges cleaned
    if cleaned = "" ∨ cleaned.length < 2 then none
    else some (pyTitle cleaned)

theorem clean_example_noreply :
    clean_brand_name "Nykaa Newsletter noreply" = some "Nykaa" := by decide

theorem clean_example_team :
    clean_brand_name "The Bewakoof Team" = some "Bewakoof" := by decide

theorem clean_example_short : clean_brand_name "A" = none := by decide

/-! ## Python dict literals

A Python dict literal with duplicate keys keeps the first occurrence's
position and the last occurrence's value; iteration follows insertion order.
Dict literals are kept as association lists in source order (duplicates
included); lookup takes the last matching value (what the built dict holds),
and iteration (`d.items()`) goes through `pyDict`, which deduplicates with
exactly the literal's key/value resolution. -/

def pyDictInsert {α : Type} (l : List (String × α)) (kv : String × α) :
    List (String × α) :=
  match l with
  | [] => [kv]
  | (k, v) :: t => if k = kv.1 then (k, kv.2) :: t else (k, v) :: pyDictInsert t kv

def pyDict {α : Type} (l : List (String × α)) : List (String × α) :=
  l.foldl pyDictInsert []

/-- Python `d.get(k)` / `d[k]` / `k in d` on a dict-literal association list
(the last occurrence of a duplicated key wins). -/
def dictGet {α : Type} (k : String) (d : List (String × α)) : Option α :=
  ((d.filter (fun kv => kv.1 = k)).getLast?).map (·.2)

/-! ## engine.py: lookup tables -/

/-- `BRAND_MAPPING` (engine.py lines 94-116): domain → brand name. -/
def BRAND_MAPPING : List (String × String) :=
  [("nykaa", "Nykaa"), ("myntra", "Myntra"), ("zomato", "Zomato"),
   ("swiggy", "Swiggy"), ("meesho", "Meesho"), ("mamaearth", "Mamaearth"),
   ("purplle", "Purplle"), ("firstcry", "FirstCry"), ("tatacliq", "Tata CLiQ"),
   ("ajio", "AJIO"), ("flipkart", "Flipkart"), ("amazon", "Amazon"),
   ("snapdeal", "Snapdeal"), ("paytm", "Paytm"), ("bigbasket", "BigBasket"),
   ("grofers", "Grofers"), ("croma", "Croma"), ("reliance", "Reliance"),
   ("reliance digital", "Reliance Digital")]

/-- `INDUSTRIES` (engine.py lines 119-137): the closed 17-value enum. -/
def INDUSTRIES : List String :=
  ["Apparel & Accessories", "Baby & Kids", "Beauty & Personal Care",
   "Books, Art & Stationery", "Business & B2B Retail", "Electronics & Tech",
   "Entertainment", "Finance & Fintech", "Food & Beverage",
   "General / Department Store", "Gifts & Lifestyle",
   "Health, Fitness & Wellness", "Home & Living", "Luxury & High-End Goods",
   "Pets", "Tools, Auto & DIY", "Travel & Outdoors"]

/-- `BRAND_INDUSTRY_MAPPING` (engine.py lines 169-630), in source order;
the literal has duplicate keys (round-2 fixes re-assign e.g. "zara",
"gucci"), resolved by `pyDict` exactly as a Python dict literal resolves
them (last value wins, first position kept). -/
def BRAND_INDUSTRY_MAPPING : List (String × String) :=
  [("nykaa", "Beauty & Personal Care"), ("purplle", "Beauty & Personal Care"),
   ("mamaearth", "Beauty & Personal Care"), ("sugar", "Beauty & Personal Care"),
   ("plum", "Beauty & Personal Care"), ("wow", "Beauty & Personal Care"),
   ("myglamm", "Beauty & Personal Care"),
   ("minimalist", "Beauty & Personal Care"),
   ("dot & key", "Beauty & Personal Care"),
   ("beardo", "Beauty & Personal Care"),
   ("man matters", "Beauty & Personal Care"),
   ("mcaffeine", "Beauty & Personal Care"),
   ("re\x27equil", "Beauty & Personal Care"),
   ("forest essentials", "Beauty & Personal Care"),
   ("kama ayurveda", "Beauty & Personal Care"),
   ("lakme", "Beauty & Personal Care"), ("colorbar", "Beauty & Personal Care"),
   ("foxtale", "Beauty & Personal Care"),
   ("bobbi brown", "Beauty & Personal Care"),
   ("bobbi brown cosmetics", "Beauty & Personal Care"),
   ("bobbi brown black friday", "Beauty & Personal Care"),
   ("kiehl\x27s", "Beauty & Personal Care"),
   ("kiehl\x27s since 1851", "Beauty & Personal Care"),
   ("nyx", "Beauty & Personal Care"),
   ("nyx professional makeup", "Beauty & Personal Care"),
   ("urban decay", "Beauty & Personal Care"),
   ("mac", "Beauty & Personal Care"),
   ("mac cosmetics", "Beauty & Personal Care"),
   ("mac lover membership", "Beauty & Personal Care"),
   ("sephora", "Beauty & Personal Care"),
   ("innisfree", "Beauty & Personal Care"),
   ("givenchy", "Beauty & Personal Care"),
   ("revlon", "Beauty & Personal Care"), ("cerave", "Beauty & Personal Care"),
   ("estee lauder", "Beauty & Personal Care"),
   ("clinique", "Beauty & Personal Care"),
   ("l\x27oreal", "Beauty & Personal Care"),
   ("maybelline", "Beauty & Personal Care"),
   ("charlotte tilbury", "Beauty & Personal Care"),
   ("fenty beauty", "Beauty & Personal Care"),
   ("rare beauty", "Beauty & Personal Care"),
   ("glossier", "Beauty & Personal Care"),
   ("the ordinary", "Beauty & Personal Care"),
   ("drunk elephant", "Beauty & Personal Care"),
   ("tatcha", "Beauty & Personal Care"), ("olaplex", "Beauty & Personal Care"),
   ("dyson", "Electronics & Tech"),
   ("myntra", "General / Department Store"),
   ("westside", "Apparel & Accessories"), ("w", "Apparel & Accessories"),
   ("biba", "Apparel & Accessories"), ("fabindia", "Apparel & Accessories"),
   ("global desi", "Apparel & Accessories"),
   ("zivame", "Apparel & Accessories"), ("clovia", "Apparel & Accessories"),
   ("shein", "Apparel & Accessories"), ("urbanic", "Apparel & Accessories"),
   ("stalkbuylove", "Apparel & Accessories"),
   ("faballey", "Apparel & Accessories"), ("libas", "Apparel & Accessories"),
   ("nicobar", "Apparel & Accessories"), ("11.11", "Apparel & Accessories"),
   ("11.11 / eleven eleven", "Apparel & Accessories"),
   ("peeli dori", "Apparel & Accessories"), ("ogaan", "Apparel & Accessories"),
   ("tilfi", "Apparel & Accessories"),
   ("manish malhotra", "Apparel & Accessories"),
   ("tribe amrapali", "Apparel & Accessories"),
   ("shop lune", "Apparel & Accessories"), ("and", "Apparel & Accessories"),
   ("no nasties", "Apparel & Accessories"),
   ("truth be told", "Apparel & Accessories"),
   ("turn black", "Apparel & Accessories"),
   ("ganni", "Apparel & Accessories"),
   ("reformation", "Apparel & Accessories"),
   ("luisaviaroma", "Apparel & Accessories"),
   ("mytheresa", "Apparel & Accessories"),
   ("anthropologie", "Apparel & Accessories"),
   ("maeve by anthropologie", "Apparel & Accessories"),
   ("zara", "Apparel & Accessories"), ("mango", "Apparel & Accessories"),
   ("mango sale", "Apparel & Accessories"), ("h&m", "Apparel & Accessories"),
   ("gucci", "Apparel & Accessories"),
   ("balenciaga", "Apparel & Accessories"),
   ("net-a-porter", "Apparel & Accessories"),
   ("farfetch", "Apparel & Accessories"), ("revolve", "Apparel & Accessories"),
   ("asos", "Apparel & Accessories"),
   ("free people", "Apparel & Accessories"), ("cos", "Apparel & Accessories"),
   ("& other stories", "Apparel & Accessories"),
   ("everlane", "Apparel & Accessories"),
   ("realisation par", "Apparel & Accessories"),
   ("house of cb", "Apparel & Accessories"),
   ("princess polly", "Apparel & Accessories"),
   ("bewakoof", "Apparel & Accessories"),
   ("the souled store", "Apparel & Accessories"),
   ("snitch", "Apparel & Accessories"),
   ("rare rabbit", "Apparel & Accessories"),
   ("jack & jones", "Apparel & Accessories"),
   ("levis", "Apparel & Accessories"), ("levi\x27s", "Apparel & Accessories"),
   ("peter england", "Apparel & Accessories"),
   ("van heusen", "Apparel & Accessories"),
   ("louis philippe", "Apparel & Accessories"),
   ("allen solly", "Apparel & Accessories"),
   ("uniqlo", "Apparel & Accessories"), ("gap", "Apparel & Accessories"),
   ("calvin klein", "Apparel & Accessories"),
   ("calvin klein outlet", "Apparel & Accessories"),
   ("bombay shirt company", "Apparel & Accessories"),
   ("march tee", "Apparel & Accessories"),
   ("tommy hilfiger", "Apparel & Accessories"),
   ("ralph lauren", "Apparel & Accessories"),
   ("hugo boss", "Apparel & Accessories"),
   ("massimo dutti", "Apparel & Accessories"),
   ("bonobos", "Apparel & Accessories"), ("j.crew", "Apparel & Accessories"),
   ("banana republic", "Apparel & Accessories"),
   ("brooks brothers", "Apparel & Accessories"),
   ("zomato", "Food & Beverage"), ("swiggy", "Food & Beverage"),
   ("bigbasket", "Food & Beverage"), ("grofers", "Food & Beverage"),
   ("blinkit", "Food & Beverage"), ("zepto", "Food & Beverage"),
   ("instamart", "Food & Beverage"), ("dunzo", "Food & Beverage"),
   ("dominos", "Food & Beverage"), ("mcdonalds", "Food & Beverage"),
   ("burger king", "Food & Beverage"), ("kfc", "Food & Beverage"),
   ("pizza hut", "Food & Beverage"), ("starbucks", "Food & Beverage"),
   ("chaayos", "Food & Beverage"), ("blue tokai", "Food & Beverage"),
   ("sleepy owl", "Food & Beverage"), ("licious", "Food & Beverage"),
   ("freshmeat", "Food & Beverage"), ("country delight", "Food & Beverage"),
   ("farmer\x27s dog", "Pets"), ("the farmer\x27s dog", "Pets"),
   ("native pet", "Pets"), ("matt | the farmer\x27s dog", "Pets"),
   ("makemytrip", "Travel & Outdoors"), ("goibibo", "Travel & Outdoors"),
   ("cleartrip", "Travel & Outdoors"), ("yatra", "Travel & Outdoors"),
   ("ixigo", "Travel & Outdoors"), ("booking", "Travel & Outdoors"),
   ("airbnb", "Travel & Outdoors"), ("oyo", "Travel & Outdoors"),
   ("treebo", "Travel & Outdoors"), ("fabhotels", "Travel & Outdoors"),
   ("redbus", "Travel & Outdoors"), ("indigo", "Travel & Outdoors"),
   ("spicejet", "Travel & Outdoors"), ("airindia", "Travel & Outdoors"),
   ("air india", "Travel & Outdoors"), ("vistara", "Travel & Outdoors"),
   ("all accor", "Travel & Outdoors"),
   ("all - accor live limitless", "Travel & Outdoors"),
   ("accor", "Travel & Outdoors"), ("marriott", "Travel & Outdoors"),
   ("hilton", "Travel & Outdoors"), ("taj", "Travel & Outdoors"),
   ("ihg", "Travel & Outdoors"), ("hyatt", "Travel & Outdoors"),
   ("croma", "Electronics & Tech"), ("reliance digital", "Electronics & Tech"),
   ("vijay sales", "Electronics & Tech"), ("apple", "Electronics & Tech"),
   ("samsung", "Electronics & Tech"), ("oneplus", "Electronics & Tech"),
   ("xiaomi", "Electronics & Tech"), ("realme", "Electronics & Tech"),
   ("boat", "Electronics & Tech"), ("noise", "Electronics & Tech"),
   ("fire-boltt", "Electronics & Tech"), ("pebble", "Electronics & Tech"),
   ("fossil", "Electronics & Tech"),
   ("pepperfry", "Home & Living"), ("urban ladder", "Home & Living"),
   ("hometown", "Home & Living"), ("ikea", "Home & Living"),
   ("home centre", "Home & Living"), ("nestasia", "Home & Living"),
   ("ellementry", "Home & Living"), ("wooden street", "Home & Living"),
   ("sleepycat", "Home & Living"), ("wakefit", "Home & Living"),
   ("sunday", "Home & Living"), ("pottery barn", "Home & Living"),
   ("pottery barn black friday", "Home & Living"),
   ("pottery barn cyber monday", "Home & Living"),
   ("pottery barn design services", "Home & Living"),
   ("pottery barn sale", "Home & Living"), ("west elm", "Home & Living"),
   ("williams sonoma", "Home & Living"), ("crate & barrel", "Home & Living"),
   ("cb2", "Home & Living"), ("house of things", "Home & Living"),
   ("pharmeasy", "Health, Fitness & Wellness"),
   ("netmeds", "Health, Fitness & Wellness"),
   ("1mg", "Health, Fitness & Wellness"),
   ("apollo pharmacy", "Health, Fitness & Wellness"),
   ("apollo 24|7", "Health, Fitness & Wellness"),
   ("apollo24|7", "Health, Fitness & Wellness"),
   ("healthkart", "Health, Fitness & Wellness"),
   ("cult.fit", "Health, Fitness & Wellness"),
   ("cure.fit", "Health, Fitness & Wellness"),
   ("practo", "Health, Fitness & Wellness"),
   ("mfine", "Health, Fitness & Wellness"),
   ("truweight", "Health, Fitness & Wellness"),
   ("oziva", "Health, Fitness & Wellness"),
   ("kapiva", "Health, Fitness & Wellness"),
   ("ultrahuman", "Health, Fitness & Wellness"),
   ("ultrahuman cyborg", "Health, Fitness & Wellness"),
   ("whoop", "Health, Fitness & Wellness"),
   ("oura", "Health, Fitness & Wellness"),
   ("fitbit", "Health, Fitness & Wellness"),
   ("paytm", "Finance & Fintech"), ("phonepe", "Finance & Fintech"),
   ("gpay", "Finance & Fintech"), ("google pay", "Finance & Fintech"),
   ("cred", "Finance & Fintech"), ("slice", "Finance & Fintech"),
   ("jupiter", "Finance & Fintech"), ("fi", "Finance & Fintech"),
   ("groww", "Finance & Fintech"), ("zerodha", "Finance & Fintech"),
   ("upstox", "Finance & Fintech"), ("policybazaar", "Finance & Fintech"),
   ("acko", "Finance & Fintech"), ("digit", "Finance & Fintech"),
   ("scapia", "Finance & Fintech"), ("onecard", "Finance & Fintech"),
   ("niyo", "Finance & Fintech"), ("uni", "Finance & Fintech"),
   ("firstcry", "Baby & Kids"), ("hopscotch", "Baby & Kids"),
   ("babyhug", "Baby & Kids"), ("the mom co", "Baby & Kids"),
   ("mamaearth baby", "Baby & Kids"), ("mothercare", "Baby & Kids"),
   ("the moms co", "Baby & Kids"),
   ("decathlon", "Apparel & Accessories"), ("puma", "Apparel & Accessories"),
   ("nike", "Apparel & Accessories"), ("adidas", "Apparel & Accessories"),
   ("reebok", "Apparel & Accessories"), ("asics", "Apparel & Accessories"),
   ("skechers", "Apparel & Accessories"), ("hrx", "Apparel & Accessories"),
   ("allbirds", "Apparel & Accessories"), ("strava", "Apparel & Accessories"),
   ("new balance", "Apparel & Accessories"),
   ("under armour", "Apparel & Accessories"),
   ("lululemon", "Apparel & Accessories"),
   ("gymshark", "Apparel & Accessories"),
   ("alo yoga", "Apparel & Accessories"),
   ("caratlane", "Apparel & Accessories"),
   ("tanishq", "Apparel & Accessories"),
   ("bluestone", "Apparel & Accessories"),
   ("melorra", "Apparel & Accessories"), ("candere", "Apparel & Accessories"),
   ("kalyan jewellers", "Apparel & Accessories"),
   ("malabar gold", "Apparel & Accessories"),
   ("bookmyshow", "Entertainment"), ("netflix", "Entertainment"),
   ("amazon prime", "Entertainment"), ("hotstar", "Entertainment"),
   ("disney", "Entertainment"), ("zee5", "Entertainment"),
   ("sony liv", "Entertainment"), ("jio cinema", "Entertainment"),
   ("spotify", "Entertainment"), ("gaana", "Entertainment"),
   ("wynk", "Entertainment"),
   ("flipkart", "General / Department Store"),
   ("amazon", "General / Department Store"),
   ("snapdeal", "General / Department Store"),
   ("meesho", "General / Department Store"),
   ("tatacliq", "General / Department Store"),
   ("tata cliq", "General / Department Store"),
   ("reliance", "General / Department Store"),
   ("jiomart", "General / Department Store"),
   ("ajio", "General / Department Store"),
   ("anubhav barsaiyan", "General / Department Store"),
   ("burrow", "Home & Living"), ("brooklinen", "Home & Living"),
   ("stayvista", "Home & Living"), ("circus", "Home & Living"),
   ("anthropologie", "General / Department Store"),
   ("shopbop", "General / Department Store"),
   ("net-a-porter", "General / Department Store"),
   ("luisaviaroma", "General / Department Store"),
   ("shopsimon", "General / Department Store"),
   ("ganni", "General / Department Store"),
   ("gucci", "Luxury & High-End Goods"),
   ("balenciaga", "Luxury & High-End Goods"),
   ("mango", "General / Department Store"),
   ("porter", "General / Department Store"),
   ("anastasia beverly hills", "Beauty & Personal Care"),
   ("quip", "Health, Fitness & Wellness"),
   ("cotopaxi", "Apparel & Accessories"),
   ("outdoor voices", "Apparel & Accessories"),
   ("alo", "Apparel & Accessories"),
   ("monica + andy", "Baby & Kids"),
   ("bombas", "General / Department Store"),
   ("meundies", "General / Department Store"),
   ("supertails", "Pets"),
   ("mokobara", "Apparel & Accessories"),
   ("shadowfax", "General / Department Store"),
   ("newaudience", "General / Department Store"),
   ("cosmos", "General / Department Store"),
   ("nik sharma", "General / Department Store"),
   ("aashni + co", "Apparel & Accessories"),
   ("aashni", "Apparel & Accessories"),
   ("khara kapas", "Apparel & Accessories"),
   ("ka-sha", "Apparel & Accessories"),
   ("payal singhal", "Apparel & Accessories"),
   ("jaypore", "Apparel & Accessories"),
   ("j a y p o r e", "Apparel & Accessories"),
   ("11.11", "Apparel & Accessories"),
   ("eleven eleven", "Apparel & Accessories"),
   ("alex van divner", "Apparel & Accessories"),
   ("ashwajeet singh", "Apparel & Accessories"),
   ("rothy\x27s", "Apparel & Accessories"),
   ("maeve", "Apparel & Accessories"),
   ("anthroliving", "Home & Living"), ("anthro living", "Home & Living"),
   ("anthro black friday", "General / Department Store"),
   ("anthro cyber monday", "General / Department Store"),
   ("anthro new arrivals", "General / Department Store"),
   ("daily harvest", "Food & Beverage"), ("teabox", "Food & Beverage"),
   ("ritual", "Health, Fitness & Wellness"),
   ("versace", "Luxury & High-End Goods"),
   ("warby parker", "Apparel & Accessories"),
   ("shinola", "General / Department Store"),
   ("zara", "General / Department Store"),
   ("uniqlo", "General / Department Store"),
   ("gap", "General / Department Store"),
   ("calvin klein", "General / Department Store"),
   ("interior define", "Home & Living"), ("sleepycat", "Home & Living"),
   ("eve sleep", "Home & Living"), ("ecdb", "Home & Living"),
   ("d\x27you", "Beauty & Personal Care"),
   ("ilia", "Beauty & Personal Care"),
   ("madison reed", "Beauty & Personal Care"),
   ("credo beauty", "Beauty & Personal Care"),
   ("typsy beauty", "Beauty & Personal Care"),
   ("nua", "Beauty & Personal Care"),
   ("marie claire", "Apparel & Accessories"),
   ("aromaworks london", "Beauty & Personal Care"),
   ("native pet", "Food & Beverage"), ("farmer\x27s dog", "Food & Beverage"),
   ("cava athleisure", "Apparel & Accessories"),
   ("zevo insect", "Home & Living"),
   ("bare necessities", "Apparel & Accessories"),
   ("autry", "Apparel & Accessories"),
   ("proper cloth", "Apparel & Accessories"),
   ("la maison goyard", "Luxury & High-End Goods"),
   ("ayr", "Apparel & Accessories"),
   ("vibecrafts", "Home & Living"), ("phool", "Home & Living"),
   ("arman sood", "General / Department Store"),
   ("pallavi", "General / Department Store"),
   ("james at radiant", "General / Department Store"),
   ("kellie hackney", "General / Department Store"),
   ("maddison cox", "General / Department Store"),
   ("theo at growthrocks", "General / Department Store"),
   ("matt | the farmer\x27s dog", "Food & Beverage"),
   ("zendesk", "General / Department Store"),
   ("your zendesk", "General / Department Store"),
   ("zendesk sell", "General / Department Store"),
   ("topconsumerreviews.com", "General / Department Store"),
   ("gabit", "Electronics & Tech")]

theorem mapping_caratlane :
    dictGet "caratlane" BRAND_INDUSTRY_MAPPING = some "Apparel & Accessories" := by decide

theorem mapping_zara_last_wins :
    dictGet "zara" BRAND_INDUSTRY_MAPPING = some "General / Department Store" := by decide

/-- `INDUSTRY_KEYWORDS` (engine.py lines 641-733): weighted keywords per
industry (weight 3 highly specific, 2 moderately, 1 generic). -/
def INDUSTRY_KEYWORDS : List (String × List (String × Nat)) :=
  [("Apparel & Accessories",
    [("saree", 3), ("kurti", 3), ("lehenga", 3), ("salwar", 3),
     ("dupatta", 3), ("ethnic wear", 3), ("women\x27s fashion", 3),
     ("lingerie", 3), ("nightwear", 2), ("western wear", 2),
     ("anarkali", 3), ("palazzo", 3), ("churidar", 3),
     ("men\x27s fashion", 3), ("blazer", 2), ("formal wear", 2),
     ("sherwani", 3), ("trouser", 2), ("polo shirt", 2),
     ("sportswear", 3), ("activewear", 3), ("athleisure", 3),
     ("tracksuit", 3), ("sneakers", 2), ("footwear", 2),
     ("handbag", 3), ("sunglasses", 3), ("eyewear", 2),
     ("jewelry", 3), ("necklace", 3), ("earring", 3), ("bracelet", 3),
     ("swimwear", 3), ("outerwear", 2), ("jacket", 2), ("coat", 2),
     ("denim", 2), ("jeans", 2), ("t-shirt", 1)]),
   ("Baby & Kids",
    [("baby", 2), ("kids", 2), ("toddler", 3), ("infant", 3),
     ("newborn", 3), ("diaper", 3), ("feeding", 2), ("stroller", 3),
     ("crib", 3), ("toy", 2), ("kids wear", 3), ("baby clothes", 3),
     ("nursery", 3), ("parenting", 3), ("pregnancy", 3), ("maternity", 3)]),
   ("Beauty & Personal Care",
    [("skincare", 3), ("makeup", 3), ("cosmetic", 3), ("lipstick", 3),
     ("mascara", 3), ("foundation", 2), ("serum", 3), ("moisturizer", 3),
     ("sunscreen", 3), ("face wash", 3), ("cleanser", 3), ("toner", 2),
     ("haircare", 3), ("shampoo", 3), ("conditioner", 2), ("hair oil", 3),
     ("perfume", 3), ("fragrance", 2), ("deodorant", 2), ("grooming", 2),
     ("nail polish", 3), ("eye shadow", 3), ("blush", 2), ("concealer", 3),
     ("primer", 2), ("beauty routine", 3), ("glow", 1)]),
   ("Electronics & Tech",
    [("smartphone", 3), ("laptop", 3), ("computer", 2), ("earbuds", 3),
     ("headphones", 3), ("speaker", 2), ("smartwatch", 3), ("wearable", 2),
     ("television", 3), ("camera", 2), ("appliance", 2), ("gadget", 3),
     ("charger", 2), ("electronic", 2), ("gaming", 2), ("console", 2),
     ("processor", 3), ("tech", 1), ("smart home", 3)]),
   ("Entertainment",
    [("movie", 3), ("film", 2), ("cinema", 3), ("theatre", 3),
     ("concert", 3), ("streaming", 2), ("series", 2), ("episode", 3),
     ("season", 1), ("music", 2), ("playlist", 3), ("podcast", 3)]),
   ("Finance & Fintech",
    [("payment", 2), ("transaction", 3), ("transfer", 2), ("upi", 3),
     ("credit card", 3), ("debit card", 3), ("emi", 3), ("loan", 3),
     ("insurance", 3), ("invest", 3), ("mutual fund", 3), ("stock", 2),
     ("trading", 3), ("portfolio", 3), ("bank", 2), ("savings", 2),
     ("deposit", 2), ("recharge", 2), ("cashback", 2)]),
   ("Food & Beverage",
    [("restaurant", 3), ("pizza", 3), ("burger", 3), ("biryani", 3),
     ("curry", 2), ("cuisine", 3), ("chef", 2), ("grocery", 3),
     ("vegetables", 2), ("fruits", 2), ("coffee", 2), ("smoothie", 3),
     ("dessert", 2), ("cake", 2), ("meat", 2), ("chicken", 2),
     ("seafood", 3), ("snacks", 2), ("breakfast", 1), ("lunch", 1),
     ("dinner", 1), ("menu", 2), ("recipe", 3), ("delicious", 2)]),
   ("Health, Fitness & Wellness",
    [("medicine", 3), ("pharmacy", 3), ("wellness", 2), ("vitamin", 3),
     ("supplement", 3), ("doctor", 2), ("prescription", 3),
     ("workout", 2), ("exercise", 2), ("yoga", 2), ("meditation", 3),
     ("protein", 2), ("nutrition", 3), ("diet", 2), ("weight loss", 3),
     ("immunity", 3), ("ayurveda", 3), ("herbal", 2), ("natural remedy", 3),
     ("fitness tracker", 3), ("gym", 2)]),
   ("Home & Living",
    [("furniture", 3), ("sofa", 3), ("mattress", 3), ("pillow", 2),
     ("decor", 2), ("living room", 3), ("bedroom", 2), ("bathroom", 2),
     ("curtain", 3), ("carpet", 3), ("rug", 2), ("lamp", 2),
     ("lighting", 2), ("organizer", 2), ("shelf", 2), ("wardrobe", 2),
     ("kitchenware", 3), ("cookware", 3), ("utensil", 2), ("dinnerware", 3)]),
   ("Pets",
    [("pet food", 3), ("dog food", 3), ("cat food", 3), ("pet toy", 3),
     ("pet grooming", 3), ("veterinary", 3), ("pet health", 3),
     ("dog treat", 3), ("cat litter", 3), ("pet supplement", 3),
     ("puppy", 2), ("kitten", 2), ("pet bed", 3), ("leash", 3)]),
   ("Travel & Outdoors",
    [("flight", 3), ("hotel", 3), ("travel", 3), ("trip", 2),
     ("vacation", 3), ("holiday", 2), ("destination", 3), ("airport", 3),
     ("airline", 3), ("resort", 3), ("accommodation", 3),
     ("car rental", 3), ("tour", 2), ("itinerary", 3),
     ("passport", 3), ("visa", 2), ("luggage", 2),
     ("camping", 3), ("hiking", 3), ("outdoor gear", 3)]),
   ("Tools, Auto & DIY",
    [("power tool", 3), ("hand tool", 3), ("drill", 3), ("wrench", 3),
     ("automotive", 3), ("car care", 3), ("car wash", 3),
     ("home improvement", 3), ("diy", 2), ("hardware", 2),
     ("lawn mower", 3), ("garden tool", 3)])]

/-! ## engine.py: the keyword-fallback industry classifier (lines 868-927) -/

/-- The per-industry score loop of `_extract_industry_by_keywords`: each
keyword present in the combined text adds its weight, doubled when it also
appears in the (non-empty) subject. -/
def industryScore (kws : List (String × Nat)) (combined subject_lower : String) :
    Nat :=
  kws.foldl
    (fun score kw =>
      if pyIn kw.1 combined then
        score + kw.2 +
          (if subject_lower ≠ "" ∧ pyIn kw.1 subject_lower then kw.2 else 0)
      else score) 0

/-- Need at least 4 weighted points to classify (`MIN_SCORE_THRESHOLD`). -/
def MIN_SCORE_THRESHOLD : Nat := 4

/-- The descending-score order used by `sorted(..., key=lambda x: x[1],
reverse=True)`; `insertionSort` with this relation is a stable sort, like
Python's. -/
def scoreGe (a b : String × Nat) : Prop := b.2 ≤ a.2

instance : DecidableRel scoreGe := fun a b => Nat.decLe b.2 a.2

instance : IsTotal (String × Nat) scoreGe :=
  ⟨fun a b => Nat.le_total b.2 a.2⟩

instance : IsTrans (String × Nat) scoreGe :=
  ⟨fun _ _ _ h1 h2 => Nat.le_trans h2 h1⟩

/-- `_extract_industry_by_keywords` (engine.py lines 868-927).  The ambiguity
guard `second_score / best_score > AMBIGUITY_RATIO` (floats, ratio 0.7) is
written as `10 * second_score > 7 * best_score`: for positive integer scores
these are the same rational comparison, and the float evaluation agrees with
the rational one on the reachable score range (a quotient of integers below
the few hundreds is never within one ulp of 0.7 without being exactly 0.7,
and 0.7 rounds to the same double on both sides). -/
def industryTextParts (subject preview html : String) : List String :=
  (if subject ≠ "" then [pyLower subject] else []) ++
  (if preview ≠ "" then [pyLower preview] else []) ++
  (if html ≠ "" then [pyTake 5000 (pyLower html)] else [])

/-- The combined lowercase text blob (`" ".join(text_parts)`). -/
def industryCombined (subject preview html : String) : String :=
  joinSpace (industryTextParts subject preview html)

/-- The weighted score one industry (given by name) gets on these inputs. -/
def industryScoreOf (name subject preview html : String) : Nat :=
  industryScore ((dictGet name INDUSTRY_KEYWORDS).getD [])
    (industryCombined subject preview html) (pyLower subject)

/-- The `industry_scores` dict as an association list in insertion order
(industries scoring 0 are absent). -/
def industryScoresOf (subject preview html : String) : List (String × Nat) :=
  INDUSTRY_KEYWORDS.filterMap
    (fun ik =>
      let s := industryScore ik.2 (industryCombined subject preview html)
        (pyLower subject)
      if s > 0 then some (ik.1, s) else none)

def extract_industry_by_keywords (subject preview html : String) :
    Option String :=
  if (industryTextParts subject preview html).isEmpty then none
  else
    let industry_scores := industryScoresOf subject preview html
    if industry_scores.isEmpty then none
    else
      match industry_scores.insertionSort scoreGe with
      | [] => none
      | (best_industry, best_score) :: rest =>
        if best_score < MIN_SCORE_THRESHOLD then none
        else
          match rest with
          | [] => some best_industry
          | (_, second_score) :: _ =>
            if 10 * second_score > 7 * best_score then none
            else some best_industry

theorem kw_health_example :
    extract_industry_by_keywords "buy medicine pharmacy prescription" "" "" =
      some "Health, Fitness & Wellness" := by decide

theorem kw_empty_example : extract_industry_by_keywords "" "" "" = none := by decide

/-! ## backend/models.py: the BrandClassification cache row (lines 176-189)

The timestamp columns (`created_at`, `updated_at`) are environment-supplied
and are not part of any claim, so they are omitted from the embedding. -/

structure BrandClassificationEntry where
  brand_name : String
  industry : String
  confidence : ℚ
  classified_by : String
deriving DecidableEq

/-- Exact rational for the float `1.0`. -/
def conf_1_0 : ℚ := ratLit 1 1 (by decide) (by decide)

/-- Exact rational for the float `0.9`. -/
def conf_0_9 : ℚ := ratLit 9 10 (by decide) (by decide)

/-- Exact rational for the float `0.8`. -/
def conf_0_8 : ℚ := ratLit 4 5 (by decide) (by decide)

/-- Exact rational for the float `0.5`. -/
def conf_0_5 : ℚ := ratLit 1 2 (by decide) (by decide)

/-- Exact rational for the float `0.0`. -/
def ratZero : ℚ := ratLit 0 1 (by decide) (by decide)

/-! ## engine.py: _cache_brand_classification (lines 836-865) -/

/-- `_cache_brand_classification`: look up the first row whose brand name
matches case-insensitively (`ilike` with no wildcard characters in the brand
name is case-insensitive equality); if one exists, update it in place only
when the new provenance is `"ai"` and the stored provenance is not
`"manual"`; otherwise insert a new row.  The database session is the list of
rows; `db.commit()`/`rollback()` are persistence-layer operations with no
further data effect here. -/
def cache_brand_classification (db_session : List BrandClassificationEntry)
    (brand_name industry classified_by : String) (confidence : ℚ) :
    List BrandClassificationEntry :=
  match db_session.findIdx?
      (fun e => pyLower e.brand_name = pyLower brand_name) with
  | some i =>
    List.modify
      (fun e =>
        if classified_by = "ai" ∧ e.classified_by ≠ "manual" then
          ⟨e.brand_name, industry, confidence, classified_by⟩
        else e) i db_session
  | none => db_session ++ [⟨brand_name, industry, confidence, classified_by⟩]

/-! ## backend/ai_classifier.py: enums and response validation -/

/-- `SUBCATEGORIES` (ai_classifier.py lines 32-110). -/
def SUBCATEGORIES : List (String × List String) :=
  [("Apparel & Accessories",
    ["Activewear / Athleisure", "Bags & Handbags", "Footwear",
     "Hats & Accessories", "Intimates / Lingerie", "Jewelry",
     "Men\x27s Clothing", "Outerwear", "Sunglasses & Eyewear",
     "Swimwear", "Unisex / Gender-Neutral Clothing", "Watches",
     "Women\x27s Clothing", "Others"]),
   ("Baby & Kids",
    ["Baby Gear", "Clothing", "Diapers & Hygiene", "Educational Products",
     "Feeding & Nursing", "Kids\x27 Furniture", "Toys & Games", "Others"]),
   ("Beauty & Personal Care",
    ["Bath & Body", "Beauty Tools & Devices", "Clean / Organic Beauty",
     "Fragrance / Perfume", "Grooming / Shaving", "Haircare",
     "Makeup / Cosmetics", "Oral Care", "Skincare", "Others"]),
   ("Books, Art & Stationery",
    ["Art Supplies", "Crafting & DIY Kits", "Educational / Academic",
     "Fiction / Non-Fiction", "Journals & Planners",
     "Notebooks / Writing Tools", "Others"]),
   ("Business & B2B Retail",
    ["Corporate Gifts", "Office Supplies", "Packaging & Fulfillment",
     "Promotional Products", "Others"]),
   ("Electronics & Tech",
    ["Cameras & Photography", "Computers & Laptops", "Drones & Gadgets",
     "Gaming Consoles & Accessories", "Headphones & Audio Gear",
     "Smart Home Devices", "Smartphones", "Smartwatches & Wearables",
     "Tablets & Accessories", "Others"]),
   ("Entertainment",
    ["Streaming", "Events & Ticketing", "Music", "Gaming", "Others"]),
   ("Finance & Fintech",
    ["Payments", "Banking", "Insurance", "Investment", "Credit Cards",
     "Others"]),
   ("Food & Beverage",
    ["Alcohol", "Beverages (Coffee, Tea, Juices)",
     "Cooking Ingredients & Spices", "Meal Kits", "Pantry Staples",
     "Snacks & Treats", "Specialty Foods", "Subscription Boxes", "Others"]),
   ("General / Department Store",
    ["Multi-Category Retail", "Online Marketplaces", "Flash Sale Retailers",
     "Others"]),
   ("Gifts & Lifestyle",
    ["Eco-Friendly / Sustainable Products", "Gift Cards",
     "Hobby & Craft Supplies", "Novelty & Fun Items", "Personalized Gifts",
     "Seasonal / Holiday Gifts", "Subscription Boxes", "Others"]),
   ("Health, Fitness & Wellness",
    ["Fitness Equipment", "Mental Health / Meditation",
     "Personal Health Devices", "Supplements", "Vitamins & Nutrition",
     "Wearable Fitness Trackers", "Yoga & Recovery Gear", "Others"]),
   ("Home & Living",
    ["Bedding & Bath", "Cleaning Supplies", "Furniture", "Home Décor",
     "Home Improvement", "Kitchen & Dining", "Lawn & Garden", "Lighting",
     "Rugs & Curtains", "Smart Home Devices", "Storage & Organization",
     "Others"]),
   ("Luxury & High-End Goods",
    ["Collectibles & Limited Editions", "Designer Fashion", "Fine Jewelry",
     "Premium Skincare", "Others"]),
   ("Pets",
    ["Pet Food", "Pet Apparel", "Pet Grooming", "Pet Health / Supplements",
     "Pet Toys", "Accessories", "Beds & Crates", "Others"]),
   ("Tools, Auto & DIY",
    ["Automotive Accessories", "Car Cleaning & Care", "Hand Tools",
     "Hardware Supplies", "Home DIY Kits", "Lawn & Garden", "Power Tools",
     "Others"]),
   ("Travel & Outdoors",
    ["Camping & Hiking Gear", "Coolers / Hydration",
     "Luggage & Travel Accessories", "Outdoor Furniture",
     "Travel Skincare & Essentials", "Beachwear & Travel Apparel",
     "Others"])]

/-- `CAMPAIGN_TYPES` (ai_classifier.py lines 113-124): the closed list the
AI response is validated against. -/
def CAMPAIGN_TYPES : List String :=
  ["Sale", "Welcome", "Abandoned Cart", "Newsletter", "New Arrival",
   "Re-engagement", "Order Update", "Festive", "Loyalty", "Feedback"]

/-- The parsed JSON fields of an external-AI response, before validation.
`none` stands for an absent field; for `confidence` it also stands for a
non-numeric JSON value (both are coerced the same way). -/
structure RawAiResponse where
  industry : Option String
  subcategory : Option String
  campaign_type : Option String
  confidence : Option ℚ
deriving DecidableEq

/-- The validated classification the caller of `classify_brand_with_ai`
receives. -/
structure AiClassification where
  industry : String
  subcategory : String
  campaign_type : String
  confidence : ℚ
deriving DecidableEq

/-- The validation section of `classify_brand_with_ai` (ai_classifier.py
lines 224-244): coerce an invalid industry to "General / Department Store",
an invalid subcategory (for the validated industry) to "Others", an invalid
campaign type to "Newsletter", and an absent, non-numeric or out-of-[0,1]
confidence to 0.8.  The JSON-decode-error and generic exception handlers of
the source return the fixed dict (General / Department Store, Others,
Newsletter, 0.5), which equals this validation applied to
`⟨none, none, none, some 0.5⟩`. -/
def classify_brand_with_ai_validate (raw : RawAiResponse) : AiClassification :=
  let industry :=
    match raw.industry with
    | some i => if INDUSTRIES.contains i then i else "General / Department Store"
    | none => "General / Department Store"
  let valid_subs := (dictGet industry SUBCATEGORIES).getD []
  let subcategory :=
    match raw.subcategory with
    | some s => if valid_subs.contains s then s else "Others"
    | none => "Others"
  let campaign_type :=
    match raw.campaign_type with
    | some c => if CAMPAIGN_TYPES.contains c then c else "Newsletter"
    | none => "Newsletter"
  let confidence :=
    match raw.confidence with
    | some c => if c < ratZero ∨ c > conf_1_0 then conf_0_8 else c
    | none => conf_0_8
  ⟨industry, subcategory, campaign_type, confidence⟩

/-- The validation section of `classify_campaign_type_with_ai`
(ai_classifier.py lines 339-351), same coercions for its two fields. -/
def classify_campaign_type_with_ai_validate (raw : RawAiResponse) :
    String × ℚ :=
  let campaign_type :=
    match raw.campaign_type with
    | some c => if CAMPAIGN_TYPES.contains c then c else "Newsletter"
    | none => "Newsletter"
  let confidence :=
    match raw.confidence with
    | some c => if c < ratZero ∨ c > conf_1_0 then conf_0_8 else c
    | none => conf_0_8
  ⟨campaign_type, confidence⟩

/-! ## engine.py: extract_industry (lines 736-833) -/

/-- `re.sub(r'[^a-z0-9\s]', '', s)`: drop everything but lowercase ASCII
letters, digits and whitespace. -/
def stripSpecial (s : String) : String :=
  ⟨s.data.filter (fun c => c.isLower || c.isDigit || isWs c)⟩

/-- The partial/fuzzy-match loop of `extract_industry` (engine.py lines
777-807), iterating over the mapping's items in dict order; `best` and
`best_len` are the `best_match`/`best_match_len` accumulators, and an exact
normalized-key match breaks out of the loop. -/
def fuzzyGo (brand_normalized : String) :
    List (String × String) → Option String → Nat → Option String
  | [], best, _ => best
  | (key, industry) :: rest, best, best_len =>
    let key_normalized := stripSpecial key
    if key_normalized = brand_normalized then some industry
    else
      let step1 : Option String × Nat :=
        if pyIn key_normalized brand_normalized ∧ key.length > best_len then
          (some industry, key.length)
        else if pyIn brand_normalized key_normalized ∧
            brand_normalized.length > 3 then
          (if key.length > best_len then (some industry, key.length)
           else (best, best_len))
        else (best, best_len)
      let brand_words := pySplitWs brand_normalized
      let key_words := pySplitWs key_normalized
      let step2 : Option String × Nat :=
        if (brand_words.any (fun w => w.length > 3 && key_words.contains w)) ∧
            key.length > step1.2 then
          (some industry, key.length)
        else step1
      fuzzyGo brand_normalized rest step2.1 step2.2

/-- Method 2 of `extract_industry`: fuzzy match over the mapping items. -/
def fuzzy_match (brand_normalized : String) : Option String :=
  fuzzyGo brand_normalized (pyDict BRAND_INDUSTRY_MAPPING) none 0

/-- The dual-shape result of `extract_industry` with `return_dict=True`
(the plain-string shape is its `industry` projection; the keyword paths set
`category` to `None`). -/
structure IndustryResult where
  industry : Option String
  category : Option String
deriving DecidableEq

/-- `extract_industry` (engine.py lines 736-833), with the cache session as
explicit state (`db_session = none` models calls without a session; the
returned session is the possibly-updated row list).  The external-AI call of
Method 3 is a network boundary: `aiRaw = some raw` models
`is_ai_available()` returning true and the response parsing to `raw`
(`classify_brand_with_ai` validates it and cannot raise); `aiRaw = none`
models AI unavailable or the import failing, which falls through to
Method 4.  The cache is only ever written, never read, on every path. -/
def extract_industry (brand_name subject preview html : String)
    (db_session : Option (List BrandClassificationEntry)) (use_ai : Bool)
    (aiRaw : Option RawAiResponse) :
    IndustryResult × Option (List BrandClassificationEntry) :=
  if brand_name = "" ∨ brand_name = "Unknown" then
    (⟨extract_industry_by_keywords subject preview html, none⟩, db_session)
  else
    let brand_lower := normalize_brand_name brand_name
    let brand_normalized := stripSpecial brand_lower
    match dictGet brand_lower BRAND_INDUSTRY_MAPPING with
    | some industry =>
      (⟨some industry, none⟩,
       db_session.map
         (fun db => cache_brand_classification db brand_name industry
           "keyword" conf_1_0))
    | none =>
      match fuzzy_match brand_normalized with
      | some best_match =>
        (⟨some best_match, none⟩,
         db_session.map
           (fun db => cache_brand_classification db brand_name best_match
             "keyword" conf_0_9))
      | none =>
        match use_ai, aiRaw with
        | true, some raw =>
          let result := classify_brand_with_ai_validate raw
          (⟨some result.industry, some result.subcategory⟩,
           if result.industry ≠ "" then
             db_session.map
               (fun db => cache_brand_classification db brand_name
                 result.industry "ai" result.confidence)
           else db_session)
        | _, _ =>
          (⟨extract_industry_by_keywords subject preview html, none⟩,
           db_session)

theorem extract_industry_caratlane :
    (extract_industry "Caratlane - A Tata Product" "" "" "" none false none).1 =
      ⟨some "Apparel & Accessories", none⟩ := by decide

/-! ## engine.py: campaign-type classification (lines 930-1187) -/

/-- `CAMPAIGN_TYPE_KEYWORDS` (engine.py lines 932-1035). -/
def CAMPAIGN_TYPE_KEYWORDS : List (String × List String) :=
  [("Sale",
    ["sale", "discount", "% off", "percent off", "off your", "offer", "deal",
     "save", "clearance", "flash sale", "limited time", "price drop",
     "markdown", "bogo", "buy one get", "extra off", "special offer",
     "promo", "promotion", "50% off", "40% off", "30% off", "20% off",
     "60% off", "70% off", "half off", "up to off", "flat off", "get off",
     "take off", "lowest price", "best price", "reduced", "savings",
     "bargain", "black friday", "cyber monday", "end of season",
     "final sale", "last chance", "ending soon", "hurry", "don\x27t miss",
     "act now", "exclusive offer", "member offer", "special deal",
     "hot deal"]),
   ("Welcome",
    ["welcome", "thanks for signing", "thanks for joining",
     "thank you for subscribing", "glad you\x27re here", "nice to meet",
     "get started", "first order", "new member", "welcome aboard", "joined",
     "you\x27re in", "you are in", "welcome to the", "happy to have you",
     "great to have you"]),
   ("Abandoned Cart",
    ["forgot something", "left behind", "still in your cart",
     "waiting for you", "complete your order", "finish your purchase",
     "cart reminder", "items waiting", "don\x27t miss out on",
     "still interested", "your cart", "in your bag", "complete checkout",
     "left in cart", "abandoned", "come back to"]),
   ("Order Update",
    ["order confirmed", "shipped", "out for delivery", "delivered",
     "tracking", "order status", "shipment", "dispatch", "on its way",
     "delivery update", "your order", "order #", "order number",
     "shipping update", "package", "estimated delivery", "arriving",
     "in transit", "picked up"]),
   ("Back in Stock",
    ["back in stock", "restocked", "available again", "they\x27re back",
     "it\x27s back", "now available", "restock", "selling fast",
     "limited stock", "almost gone", "low stock", "few left", "last few",
     "going fast"]),
   ("New Arrival",
    ["new arrival", "just landed", "just dropped", "new collection",
     "new launch", "introducing", "meet the", "fresh drop", "just in",
     "new season", "launching", "debut", "brand new", "first look",
     "sneak peek", "preview", "coming soon", "new in", "newly added",
     "fresh arrival", "latest collection", "spring collection",
     "summer collection", "fall collection", "winter collection", "ss24",
     "aw24", "fw24"]),
   ("Re-engagement",
    ["miss you", "we miss you", "come back", "haven\x27t seen you",
     "it\x27s been a while", "where have you been", "still there",
     "reconnect", "checking in", "been a while", "long time", "remember us",
     "we noticed"]),
   ("Festive",
    ["diwali", "holi", "christmas", "new year", "eid", "rakhi", "pongal",
     "onam", "navratri", "durga puja", "festival", "festive", "celebration",
     "valentine", "valentine\x27s", "be mine", "mother\x27s day",
     "father\x27s day", "thanksgiving", "independence day", "republic day",
     "easter", "gifting", "gift guide", "holiday", "seasonal",
     "raksha bandhan"]),
   ("Loyalty",
    ["points", "rewards", "loyalty", "member exclusive", "vip", "tier",
     "cashback", "earn", "redeem", "exclusive access", "insider",
     "members only", "member benefits", "loyalty program",
     "rewards program"]),
   ("Confirmation",
    ["confirm your", "confirm subscription", "verify your", "verification",
     "double opt", "confirm you want", "please confirm", "activate your",
     "complete your registration", "verify email", "confirm email"]),
   ("Feedback",
    ["review", "feedback", "rate us", "how was", "tell us", "survey",
     "share your experience", "your opinion", "rate your", "write a review",
     "leave a review", "your feedback", "quick survey", "take our survey"]),
   ("Educational",
    ["tips", "how to", "guide", "tutorial", "learn", "discover",
     "skincare routine", "styling tips", "beauty tips", "did you know",
     "pro tip", "expert advice", "the secret", "secrets of", "masterclass",
     "101", "basics", "essentials", "everything you need to know"]),
   ("Newsletter",
    ["newsletter", "weekly update", "monthly update", "digest", "roundup",
     "this week", "this month", "trending", "what\x27s new", "news from",
     "latest from", "highlights", "weekly picks", "editor\x27s picks",
     "curated for you", "hand-picked", "top stories", "in the news"]),
   ("Product Showcase",
    ["shop now", "shop the", "explore", "discover", "check out", "featured",
     "spotlight", "collection", "lookbook", "look book", "style", "outfit",
     "wear", "perfect for", "made for", "designed for", "crafted", "artisan",
     "handmade", "luxury", "premium", "exclusive", "limited edition",
     "must-have", "essential", "favorite", "favourite", "bestseller",
     "best seller", "popular", "trending now", "top picks",
     "editor\x27s choice", "staff picks", "the new", "all new", "iconic",
     "classic", "timeless"]),
   ("Promotional",
    ["shop", "buy", "order", "get yours", "available now", "free shipping",
     "free delivery", "complimentary", "gift with purchase", "bundle",
     "set", "kit", "value pack", "combo", "upgrade", "enhance", "elevate",
     "transform", "refresh", "your", "you\x27ll love", "just for you",
     "made for you", "attention", "detail", "quality", "craftsmanship"])]

/-- `priority_types` (engine.py lines 1113-1129): the fixed priority order,
most specific intent first. -/
def priority_types : List String :=
  ["Confirmation", "Order Update", "Abandoned Cart", "Welcome", "Feedback",
   "Back in Stock", "Re-engagement", "Sale", "Festive", "Loyalty",
   "New Arrival", "Educational", "Newsletter", "Product Showcase",
   "Promotional"]

/-- The type-specific acceptance thresholds (engine.py lines 1161-1169). -/
def campaignThreshold (t : String) : Nat :=
  if ["Confirmation", "Order Update", "Abandoned Cart", "Welcome",
      "Feedback"].contains t then 2
  else if ["Sale", "Back in Stock", "Re-engagement", "Festive"].contains t
    then 3
  else if ["Promotional", "Product Showcase"].contains t then 5
  else 3

/-- The scoring loop of `_extract_campaign_type_by_keywords` (lines
1131-1149): each keyword hit is weighted by its source, subject 5,
preview 2, anything else (the html text) 1. -/
def campaignScore (kws : List String) (text_parts : List (String × String)) :
    Nat :=
  text_parts.foldl
    (fun acc st =>
      kws.foldl
        (fun a kw =>
          if pyIn kw st.2 then
            a + (if st.1 = "subject" then 5
                 else if st.1 = "preview" then 2 else 1)
          else a) acc) 0

/-- The keyword list of a campaign type (empty for an unknown type; every
type in `priority_types` has one). -/
def campaignKeywords (t : String) : List String :=
  (dictGet t CAMPAIGN_TYPE_KEYWORDS).getD []

/-- The selection loop over `priority_types` (engine.py lines 1154-1185).
`best` carries `(best_type, best_score)`.  A type is considered once its
score is positive (`campaign_type in type_scores`) and clears its threshold;
the first branch demands a priority index strictly below the current best's
(dead in practice, since the loop runs in priority order), comparing
`score >= best_score * 0.5` — written `2 * score ≥ best_score`, the same
comparison since 0.5 is exact in floating point; otherwise a strictly larger
score takes over. -/
def selectBest (scoreOf : String → Nat) :
    List String → Option (String × Nat) → Option (String × Nat)
  | [], best => best
  | t :: rest, best =>
    let s := scoreOf t
    if 0 < s ∧ campaignThreshold t ≤ s then
      match best with
      | none => selectBest scoreOf rest (some (t, s))
      | some (bt, bs) =>
        if List.indexOf t priority_types < List.indexOf bt priority_types then
          if 2 * s ≥ bs then selectBest scoreOf rest (some (t, s))
          else selectBest scoreOf rest (some (bt, bs))
        else if bs < s then selectBest scoreOf rest (some (t, s))
        else selectBest scoreOf rest (some (bt, bs))
    else selectBest scoreOf rest best

/-- The `\d+\s*%` search of the fast path: somewhere in the string, one or
more ASCII digits, then optional whitespace, then a percent sign. -/
def spacesThenPercent : List Char → Bool
  | [] => false
  | c :: t => if c = '%' then true else (isWs c && spacesThenPercent t)

/-- After one digit: more digits, then `spacesThenPercent`. -/
def afterDigit : List Char → Bool
  | [] => false
  | c :: t => if c.isDigit then afterDigit t else spacesThenPercent (c :: t)

/-- `re.search(r'\d+\s*%', s)` as a Boolean. -/
def hasNumPercent (s : String) : Bool := go s.data where
  go : List Char → Bool
    | [] => false
    | c :: t => (c.isDigit && afterDigit t) || go t

/-- The sale-adjacent vocabulary of the fast path (line 1102). -/
def fastSaleWords : List String := ["off", "save", "discount", "sale", "deal"]

/-- The review/rating guard vocabulary of the fast path (line 1105). -/
def fastGuardWords : List String := ["review", "rating", "score", "complete"]

/-- `_extract_campaign_type_by_keywords` (engine.py lines 1073-1187). -/
def campaignTextParts (subject preview html : String) :
    List (String × String) :=
  (if subject ≠ "" then [("subject", pyLower subject)] else []) ++
  (if preview ≠ "" then [("preview", pyTake 500 (pyLower preview))] else []) ++
  (if html ≠ "" then [("html", pyTake 2000 (pyLower html))] else [])

/-- The weighted score one campaign type gets on these inputs. -/
def campaignScoreOf (t subject preview html : String) : Nat :=
  campaignScore (campaignKeywords t) (campaignTextParts subject preview html)

/-- The fast numeric-discount path of `_extract_campaign_type_by_keywords`
(engine.py lines 1096-1106) as a predicate on the subject: a `\d+\s*%`
match together with either a sale-adjacent word or the absence of every
review/rating guard word. -/
def fastSalePath (subject : String) : Bool :=
  subject ≠ "" && hasNumPercent (pyLower subject) &&
    (fastSaleWords.any (fun w => pyIn w (pyLower subject)) ||
      !(fastGuardWords.any (fun w => pyIn w (pyLower subject))))

def extract_campaign_type_by_keywords (subject preview html : String) :
    Option String :=
  let text_parts := campaignTextParts subject preview html
  let subject_lower := pyLower subject
  if subject ≠ "" ∧ hasNumPercent subject_lower then
    if fastSaleWords.any (fun w => pyIn w subject_lower) then some "Sale"
    else if !(fastGuardWords.any (fun w => pyIn w subject_lower)) then
      some "Sale"
    else
      if text_parts.isEmpty then none
      else (selectBest (fun t => campaignScoreOf t subject preview html)
        priority_types none).map (·.1)
  else
    if text_parts.isEmpty then none
    else (selectBest (fun t => campaignScoreOf t subject preview html)
      priority_types none).map (·.1)

theorem campaign_flat50_example :
    extract_campaign_type_by_keywords "🔥 FLAT 50% OFF Sitewide!" "" "" =
      some "Sale" := by decide

/-! ## engine.py: extract_brand (lines 1227-1389) -/

/-- The HTML-derived signals of methods 4-6, i.e. what BeautifulSoup and the
`re.search` calls over its output produce for the given HTML (a library
boundary; the classification logic applied to them below is translated from
the source).  A parse failure — the source swallows any exception around the
whole HTML block — corresponds to every field being `none`/`false`.
`footer_copyright` is the first capture group produced by the three footer
copyright patterns on the footer's text (when a footer container exists);
`body_copyright` is the capture of the whole-text copyright search used only
when no footer container was found. -/
structure HtmlSignals where
  og_site_name : Option String
  twitter_site : Option String
  application_name : Option String
  logo_alt : Option String
  footer_found : Bool
  footer_copyright : Option String
  body_copyright : Option String
deriving DecidableEq

/-- The all-absent signal record (no usable HTML). -/
def emptySignals : HtmlSignals := ⟨none, none, none, none, false, none, none⟩

/-- Method 2: `re.search(r'^([^<]+)<', sender)` — the display-name text
before the address bracket. -/
def displayNameRaw (sender : String) : Option String :=
  let before := sender.data.takeWhile (· ≠ '<')
  if before.isEmpty then none
  else if (sender.data.drop before.length).head? = some '<' then
    some ⟨before⟩
  else none

/-- Method 2 candidate: strip whitespace and quotes, clean, require at least
2 characters (engine.py lines 1252-1257). -/
def displayNameCandidate (sender : String) : Option String :=
  (displayNameRaw sender).bind (fun d =>
    (clean_brand_name
        (pyStripChar (Char.ofNat 39) (pyStripChar '"' (pyStrip d)))).bind
      (fun c => if 2 ≤ c.length then some c else none))

/-- The `[a-zA-Z0-9\-]` label-character class of the domain regex. -/
def domCh (c : Char) : Bool := c.isAlphanum || c = '-'

/-- Parse the maximal `label(.label)*` run after an `@` (fuelled as in
`splitWsGo`; the measure is the list length). -/
def parseLabels (fuel : Nat) (l : List Char) : List (List Char) :=
  match fuel with
  | 0 => []
  | fuel + 1 =>
    let lab := l.takeWhile domCh
    if lab.isEmpty then []
    else
      match l.dropWhile domCh with
      | '.' :: r2 =>
        match parseLabels fuel r2 with
        | [] => [lab]
        | more => lab :: more
      | _ => [lab]

/-- Whether a label starts with at least two ASCII letters (what the
mandatory `\.[a-zA-Z]{2,}` TLD group can consume of it). -/
def alphaPrefix2 (lab : List Char) : Bool :=
  2 ≤ (lab.takeWhile Char.isAlpha).length

/-- Method 3: the capture group of
`re.search(r'@([a-zA-Z0-9\-]+(?:\.[a-zA-Z0-9\-]+)*)\.[a-zA-Z]{2,}(?:\.[a-zA-Z]{2,})?', sender)`
as the list of its dot-separated labels.  At each `@` the greedy group takes
every label up to the last one that can serve as the mandatory TLD (backing
off exactly one label); the trailing optional TLD group can never consume
anything after that backtrack.  So the group exists iff some label at index
`j ≥ 1` starts with two letters, and greediness picks the largest such `j`,
the group being the labels before it. -/
def findDomain (l : List Char) : Option (List (List Char)) :=
  match l with
  | [] => none
  | '@' :: t =>
    let labels := parseLabels (t.length + 1) t
    match (labels.enum.filter
        (fun p => 1 ≤ p.1 && alphaPrefix2 p.2)).getLast? with
    | some (j, _) => some (labels.take j)
    | none => findDomain t
  | _ :: t => findDomain t

/-- `generic_subdomains` (engine.py line 1268). -/
def generic_subdomains : List String :=
  ["mail", "email", "smtp", "newsletter", "news", "marketing", "promo",
   "mg", "em", "send"]

/-- Method 3: the first domain part that is not a generic subdomain and is
longer than 2 characters. -/
def domainBrandPart (sender : String) : Option String :=
  (findDomain sender.data).bind (fun labels =>
    (labels.find? (fun p =>
        !(generic_subdomains.contains (pyLower ⟨p⟩)) && p.length > 2)).map
      (fun p => (⟨p⟩ : String)))

/-- The `[A-Za-z0-9\s&]` class of the subject-line brand patterns. -/
def subjCls (c : Char) : Bool := c.isAlphanum || isWs c || c = '&'

/-- Tail of `r'^\[([A-Za-z][A-Za-z0-9\s&]+?)\]'`: extend the (lazy) group
until the first `]`; the class excludes `]`, so the first `]` is the only
possible end. -/
def pat1Go (acc : List Char) : List Char → Option String
  | [] => none
  | c :: t =>
    if c = ']' then (if 2 ≤ acc.length then some ⟨acc.reverse⟩ else none)
    else if subjCls c then pat1Go (c :: acc) t
    else none

/-- `re.match(r'^\[([A-Za-z][A-Za-z0-9\s&]+?)\]', subject)`, group 1. -/
def subjectPat1 (s : List Char) : Option String :=
  match s with
  | '[' :: c :: t => if c.isAlpha then pat1Go [c] t else none
  | _ => none

/-- Tail of `r'^([A-Za-z][A-Za-z0-9\s&]+?):\s'`: the class excludes `:`, so
the group ends at the first colon, which must be followed by whitespace. -/
def pat2Go (acc : List Char) : List Char → Option String
  | [] => none
  | c :: t =>
    if c = ':' then
      match t with
      | w :: _ => if isWs w ∧ 2 ≤ acc.length then some ⟨acc.reverse⟩ else none
      | [] => none
    else if subjCls c then pat2Go (c :: acc) t
    else none

/-- `re.match(r'^([A-Za-z][A-Za-z0-9\s&]+?):\s', subject)`, group 1. -/
def subjectPat2 (s : List Char) : Option String :=
  match s with
  | c :: t => if c.isAlpha then pat2Go [c] t else none
  | [] => none

/-- The `\s*[-|]\s` terminator of the third subject pattern. -/
def pat3Tail (l : List Char) : Bool :=
  match l.dropWhile isWs with
  | '-' :: w :: _ => isWs w
  | '|' :: w :: _ => isWs w
  | _ => false

/-- Tail of `r'^([A-Za-z][A-Za-z0-9\s&]+?)\s*[-|]\s'`: the group is lazy and
its class includes whitespace, so the earliest position (of length at least
2) whose remainder matches the terminator wins. -/
def pat3Go (fuel : Nat) (acc l : List Char) : Option String :=
  match fuel with
  | 0 => none
  | fuel + 1 =>
    if 2 ≤ acc.length ∧ pat3Tail l then some ⟨acc.reverse⟩
    else
      match l with
      | c :: t => if subjCls c then pat3Go fuel (c :: acc) t else none
      | [] => none

/-- `re.match(r'^([A-Za-z][A-Za-z0-9\s&]+?)\s*[-|]\s', subject)`, group 1. -/
def subjectPat3 (s : List Char) : Option String :=
  match s with
  | c :: t => if c.isAlpha then pat3Go (t.length + 1) [c] t else none
  | [] => none

/-- Clean a subject-pattern capture and apply the 2-to-30-character gate
(engine.py line 1370). -/
def subjectCandFrom (g : Option String) : Option String :=
  g.bind (fun m =>
    (clean_brand_name m).bind (fun c =>
      if 2 ≤ c.length ∧ c.length ≤ 30 then some c else none))

/-- Method 7: the first subject pattern that yields a qualifying cleaned
candidate (a pattern that matches but cleans away does not stop the loop:
the `break` sits inside the success branch). -/
def subjectBrandCandidate (subject : String) : Option String :=
  match subjectCandFrom (subjectPat1 subject.data) with
  | some c => some c
  | none =>
    match subjectCandFrom (subjectPat2 subject.data) with
    | some c => some c
    | none => subjectCandFrom (subjectPat3 subject.data)

/-- A zero-or-one-element candidate list. -/
def optCand (o : Option String) (conf : Nat) : List (String × Nat) :=
  match o with
  | some c => [(c, conf)]
  | none => []

/-- Methods 4-6: candidates from the HTML signals, in source order with the
source confidences (og:site_name 90, twitter:site 85, application-name 85,
logo alt 75, footer copyright 70, whole-text copyright 65 when no footer
container exists). -/
def htmlCandidates (sig : HtmlSignals) : List (String × Nat) :=
  optCand (sig.og_site_name.bind clean_brand_name) 90 ++
  optCand (sig.twitter_site.bind
    (fun s => clean_brand_name (pyLstripChar '@' s))) 85 ++
  optCand (sig.application_name.bind clean_brand_name) 85 ++
  optCand (sig.logo_alt.bind (fun alt =>
    if 1 < alt.length ∧ alt.length < 50 then clean_brand_name alt
    else none)) 75 ++
  optCand (if sig.footer_found then
      sig.footer_copyright.bind (fun g =>
        (clean_brand_name g).bind (fun c =>
          if 2 ≤ c.length then some c else none))
    else none) 70 ++
  optCand (if !sig.footer_found then sig.body_copyright.bind clean_brand_name
    else none) 65

/-- Method 1: the first known brand whose mapping key occurs in the sender
(returned immediately by the source). -/
def sender_known_brand (sender : String) : Option String :=
  if sender ≠ "" then
    (BRAND_MAPPING.find? (fun kv => pyIn kv.1 (pyLower sender))).map (·.2)
  else none

/-- Method 3's early return: the domain brand part hits the brand table. -/
def domain_known_brand (sender : String) : Option String :=
  if sender ≠ "" then
    (domainBrandPart sender).bind
      (fun p => dictGet (pyLower p) BRAND_MAPPING)
  else none

/-- The candidate list `candidates` as built by `extract_brand` when neither
early return fires, in append order (display name 80, domain part 60, the
HTML candidates, subject pattern 50). -/
def qualifying_candidates (sender : String) (sig : HtmlSignals)
    (subject : String) : List (String × Nat) :=
  (if sender ≠ "" then optCand (displayNameCandidate sender) 80 else []) ++
  (if sender ≠ "" then
      (match domainBrandPart sender with
       | some p =>
         if dictGet (pyLower p) BRAND_MAPPING = none then [(pyTitle p, 60)]
         else []
       | none => [])
    else []) ++
  htmlCandidates sig ++
  (if subject ≠ "" then optCand (subjectBrandCandidate subject) 50 else [])

/-- `extract_brand` (engine.py lines 1227-1389): the two early returns, then
the candidate list sorted by confidence (Python's `sort` is stable;
`insertionSort` with `scoreGe` is the same stable descending sort), the
brand-table synonym re-check over the sorted candidates, and the sentinel
`"Unknown"` when nothing qualified. -/
def extract_brand (sender : String) (sig : HtmlSignals) (subject : String) :
    String :=
  match sender_known_brand sender with
  | some b => b
  | none =>
    match domain_known_brand sender with
    | some b => b
    | none =>
      match (qualifying_candidates sender sig subject).insertionSort scoreGe with
      | [] => "Unknown"
      | top :: rest =>
        match (top :: rest).findSome? (fun bs =>
            BRAND_MAPPING.findSome? (fun kv =>
              if pyIn kv.1 (pyLower bs.1) || pyIn (pyLower bs.1) kv.1 then
                some kv.2
              else none)) with
        | some mapped => mapped
        | none => top.1

theorem extract_brand_nykaa :
    extract_brand "Nykaa <hello@nykaa.com>" emptySignals "" = "Nykaa" := by
  decide

theorem extract_brand_randomstartup :
    extract_brand "noreply@randomstartup.io" emptySignals "" =
      "Randomstartup" := by decide

theorem extract_brand_unknown :
    extract_brand "" emptySignals "" = "Unknown" := by decide

theorem extract_brand_display :
    extract_brand "Peeli Dori <care@peelidori.com>" emptySignals "" =
      "Peeli Dori" := by decide

/-- `extract_campaign_type` (engine.py lines 1038-1070): keyword pass first;
on `None`, the optional AI fallback (modelled as for `extract_industry`)
applies only when AI is enabled and a subject exists. -/
def extract_campaign_type (subject preview html : String)
    (use_ai : Bool) (aiRaw : Option RawAiResponse) : Option String :=
  match extract_campaign_type_by_keywords subject preview html with
  | some r => some r
  | none =>
    if use_ai ∧ subject ≠ "" then
      match aiRaw with
      | some raw => some (classify_campaign_type_with_ai_validate raw).1
      | none => none
    else none

/-! ## Lemmas about the cache write -/

/-- Any row whose provenance is `"manual"` is returned unchanged, at its
position, by `_cache_brand_classification` — the in-place update demands
`classified_by == "ai" and existing.classified_by != "manual"`, and the
insert branch only appends. -/
theorem cache_preserves_manual_rows (db : List BrandClassificationEntry)
    (b ind by_ : String) (conf : ℚ) (k : Nat) (e : BrandClassificationEntry)
    (hk : db[k]? = some e) (hman : e.classified_by = "manual") :
    (cache_brand_classification db b ind by_ conf)[k]? = some e := by
  unfold cache_brand_classification
  split
  · rename_i i hidx
    rw [List.getElem?_modify]
    rw [hk]
    simp only [Option.map_some]
    by_cases hik : i = k
    · subst hik
      simp [hman]
    · simp [hik]
  · have hklt : k < db.length := by
      by_contra hge
      rw [List.getElem?_eq_none (Nat.le_of_not_lt hge)] at hk
      exact Option.noConfusion hk
    simp [List.getElem?_append, hklt, hk]

/-- Every automatic path of `extract_industry` either leaves the session's
rows untouched or writes through `_cache_brand_classification` with
provenance `"keyword"` or `"ai"`. -/
theorem extract_industry_snd_cases (brand subject preview html : String)
    (db : List BrandClassificationEntry) (use_ai : Bool)
    (aiRaw : Option RawAiResponse) :
    (extract_industry brand subject preview html (some db) use_ai aiRaw).2 =
        some db ∨
      ∃ ind by_ conf, by_ ≠ "manual" ∧
        (extract_industry brand subject preview html (some db) use_ai
            aiRaw).2 =
          some (cache_brand_classification db brand ind by_ conf) := by
  by_cases hb : brand = "" ∨ brand = "Unknown"
  · left; simp [extract_industry, hb]
  · rcases hd : dictGet (normalize_brand_name brand) BRAND_INDUSTRY_MAPPING
      with _ | industry
    · rcases hf : fuzzy_match (stripSpecial (normalize_brand_name brand))
        with _ | best
      · cases use_ai with
        | false => left; simp [extract_industry, hb, hd, hf]
        | true =>
          rcases aiRaw with _ | raw
          · left; simp [extract_industry, hb, hd, hf]
          · by_cases hi : (classify_brand_with_ai_validate raw).industry ≠ ""
            · right
              exact ⟨(classify_brand_with_ai_validate raw).industry, "ai",
                (classify_brand_with_ai_validate raw).confidence, by decide,
                by simp [extract_industry, hb, hd, hf, hi]⟩
            · left; simp [extract_industry, hb, hd, hf, hi]
      · right
        exact ⟨best, "keyword", conf_0_9, by decide,
          by simp [extract_industry, hb, hd, hf]⟩
    · right
      exact ⟨industry, "keyword", conf_1_0, by decide,
        by simp [extract_industry, hb, hd]⟩

/-- C1: For every brand name, after any automatic classification pass
(keyword- or AI-provenance) of `extract_industry` that attempts a cache
write for that brand, a pre-existing cache row whose `classified_by` field
is `"manual"` retains its `industry`, `confidence` and `classified_by`
values unchanged (the whole row, at its position, is unchanged). -/
theorem manual_cache_rows_survive_automatic_passes
    (brand subject preview html : String)
    (db : List BrandClassificationEntry) (use_ai : Bool)
    (aiRaw : Option RawAiResponse) (k : Nat) (e : BrandClassificationEntry)
    (hk : db[k]? = some e) (hman : e.classified_by = "manual")
    (db' : List BrandClassificationEntry)
    (hout : (extract_industry brand subject preview html (some db) use_ai
        aiRaw).2 = some db') :
    db'[k]? = some e := by
  rcases extract_industry_snd_cases brand subject preview html db use_ai
      aiRaw with h | ⟨ind, by_, conf, _, h⟩
  · rw [h] at hout
    cases hout
    exact hk
  · rw [h] at hout
    cases hout
    exact cache_preserves_manual_rows db brand ind by_ conf k e hk hman

/-- Witness for C1: a manual row for "nykaa" (deliberately set to an
industry the keyword table disagrees with) survives a keyword-provenance
classification of "Nykaa" untouched. -/
theorem manual_cache_rows_survive_automatic_passes_witness :
    ([(⟨"nykaa", "Electronics & Tech", conf_1_0, "manual"⟩ :
        BrandClassificationEntry)])[0]? =
      some ⟨"nykaa", "Electronics & Tech", conf_1_0, "manual"⟩ := by
  have h := manual_cache_rows_survive_automatic_passes "Nykaa" "" "" ""
    [⟨"nykaa", "Electronics & Tech", conf_1_0, "manual"⟩] false none 0
    ⟨"nykaa", "Electronics & Tech", conf_1_0, "manual"⟩ (by decide) rfl
    [⟨"nykaa", "Electronics & Tech", conf_1_0, "manual"⟩] (by decide)
  exact h

/-- A keyword-provenance write finding an existing row (any provenance)
changes nothing: the update branch additionally demands provenance "ai". -/
theorem cache_keyword_existing_noop (db : List BrandClassificationEntry)
    (b ind : String) (conf : ℚ) (i : Nat)
    (hidx : db.findIdx? (fun e => pyLower e.brand_name = pyLower b) = some i) :
    cache_brand_classification db b ind "keyword" conf = db := by
  unfold cache_brand_classification
  rw [hidx]
  apply List.ext_getElem?
  intro n
  rw [List.getElem?_modify]
  cases h : db[n]? with
  | none => rfl
  | some e => simp

/-- After a keyword-provenance write, some row matches the brand
case-insensitively (either it already did, or the new row does). -/
theorem cache_keyword_has_match (db : List BrandClassificationEntry)
    (b ind : String) (conf : ℚ) :
    ((cache_brand_classification db b ind "keyword" conf).findIdx?
      (fun e => pyLower e.brand_name = pyLower b)).isSome = true := by
  cases h : db.findIdx? (fun e => pyLower e.brand_name = pyLower b) with
  | some i =>
    rw [cache_keyword_existing_noop db b ind conf i h, h]
    rfl
  | none =>
    unfold cache_brand_classification
    rw [h, List.findIdx?_isSome]
    simp

/-- Writing the same brand twice with keyword provenance is the same as
writing it once: the second write always finds the row the first one
guaranteed. -/
theorem cache_keyword_idem (db : List BrandClassificationEntry)
    (b ind ind2 : String) (conf conf2 : ℚ) :
    cache_brand_classification
        (cache_brand_classification db b ind "keyword" conf) b ind2
        "keyword" conf2 =
      cache_brand_classification db b ind "keyword" conf := by
  have h := cache_keyword_has_match db b ind conf
  cases hi : (cache_brand_classification db b ind "keyword" conf).findIdx?
      (fun e => pyLower e.brand_name = pyLower b) with
  | none => rw [hi] at h; exact Bool.noConfusion h
  | some i => exact cache_keyword_existing_noop _ b ind2 conf2 i hi

/-- C5 counterexample: the claim — on an exact mapping hit with a session,
the cache row for the brand is written or updated to confidence 1.0 and
provenance "keyword" unless the existing row is manual — fails at brand
"Zara" with a stored non-manual ("ai") row: keyword-provenance writes never
update an existing row at all. -/
theorem exact_match_cache_update_claim_false :
    ¬ (∀ (brand : String) (db db' : List BrandClassificationEntry)
        (ind : String),
        dictGet (normalize_brand_name brand) BRAND_INDUSTRY_MAPPING =
          some ind →
        (extract_industry brand "" "" "" (some db) false none).2 = some db' →
        (∀ e ∈ db, pyLower e.brand_name = pyLower brand →
          e.classified_by ≠ "manual") →
        ∃ e ∈ db', pyLower e.brand_name = pyLower brand ∧
          e.classified_by = "keyword" ∧ e.confidence = conf_1_0) := by
  intro h
  rcases h "Zara" [⟨"zara", "Food & Beverage", conf_0_5, "ai"⟩]
      [⟨"zara", "Food & Beverage", conf_0_5, "ai"⟩]
      "General / Department Store" (by decide) (by decide)
      (by decide) with ⟨e, he, -, hkw, -⟩
  rw [List.mem_singleton] at he
  subst he
  exact absurd hkw (by decide)

/-- C5 amended: on an exact match of the normalized brand against the
mapping with a cache session present, the classification returns the mapped
industry (and no subcategory) and hands the write to
`_cache_brand_classification` with confidence 1.0 and provenance "keyword";
that write creates the row when no row matches the brand case-insensitively,
and leaves the cache completely untouched when any row (whatever its
provenance — manual or not) already matches. -/
theorem exact_mapping_hit_cache_write (brand subject preview html : String)
    (db : List BrandClassificationEntry) (use_ai : Bool)
    (aiRaw : Option RawAiResponse) (industry : String)
    (hb : ¬(brand = "" ∨ brand = "Unknown"))
    (hd : dictGet (normalize_brand_name brand) BRAND_INDUSTRY_MAPPING =
      some industry) :
    (extract_industry brand subject preview html (some db) use_ai aiRaw).1 =
        ⟨some industry, none⟩ ∧
      (extract_industry brand subject preview html (some db) use_ai
          aiRaw).2 =
        some (cache_brand_classification db brand industry "keyword"
          conf_1_0) ∧
      (db.findIdx? (fun e => pyLower e.brand_name = pyLower brand) = none →
        cache_brand_classification db brand industry "keyword" conf_1_0 =
          db ++ [⟨brand, industry, conf_1_0, "keyword"⟩]) ∧
      (∀ i, db.findIdx? (fun e => pyLower e.brand_name = pyLower brand) =
          some i →
        cache_brand_classification db brand industry "keyword" conf_1_0 =
          db) := by
  refine ⟨?_, ?_, ?_, ?_⟩
  · simp [extract_industry, hb, hd]
  · simp [extract_industry, hb, hd]
  · intro hnone
    unfold cache_brand_classification
    rw [hnone]
  · intro i hi
    exact cache_keyword_existing_noop db brand industry conf_1_0 i hi

/-- Witness for the amended C5: classifying "Caratlane - A Tata Product"
against an empty cache appends the keyword row with confidence 1.0. -/
theorem exact_mapping_hit_cache_write_witness :
    (extract_industry "Caratlane - A Tata Product" "" "" "" (some [])
        false none).2 =
      some [⟨"Caratlane - A Tata Product", "Apparel & Accessories", conf_1_0,
        "keyword"⟩] := by
  have h := exact_mapping_hit_cache_write "Caratlane - A Tata Product" "" ""
    "" [] false none "Apparel & Accessories" (by decide) (by decide)
  rw [h.2.1, h.2.2.1 (by decide)]
  rfl

/-- C4 counterexample: the claim — an existing cache entry for the brand is
read before classification and returned instead of recomputing — fails at
brand "Nykaa" with a stored (even manual) row mapping it to
"Electronics & Tech": the classifier recomputes "Beauty & Personal Care"
from the mapping table and never reads the row. -/
theorem cache_read_short_circuit_claim_false :
    ¬ (∀ (brand : String) (db : List BrandClassificationEntry)
        (e : BrandClassificationEntry),
        e ∈ db → pyLower e.brand_name = pyLower brand →
        (extract_industry brand "" "" "" (some db) false none).1.industry =
          some e.industry) := by
  intro h
  have hc := h "Nykaa" [⟨"nykaa", "Electronics & Tech", conf_1_0, "manual"⟩]
    ⟨"nykaa", "Electronics & Tech", conf_1_0, "manual"⟩
    (List.mem_singleton.mpr rfl) (by decide)
  have hv : (extract_industry "Nykaa" "" "" ""
      (some [⟨"nykaa", "Electronics & Tech", conf_1_0, "manual"⟩]) false
      none).1.industry = some "Beauty & Personal Care" := by decide
  rw [hv] at hc
  exact absurd hc (by decide)

/-- C4 amended: the cache is never read to short-circuit classification —
the classification result of `extract_industry` is the same whatever the
session holds, and the same as with no session at all; the only read happens
inside the write helper, after classification, to guard the write. -/
theorem extract_industry_result_ignores_cache
    (brand subject preview html : String)
    (db : List BrandClassificationEntry) (use_ai : Bool)
    (aiRaw : Option RawAiResponse) :
    (extract_industry brand subject preview html (some db) use_ai aiRaw).1 =
      (extract_industry brand subject preview html none use_ai aiRaw).1 := by
  by_cases hb : brand = "" ∨ brand = "Unknown"
  · simp [extract_industry, hb]
  · rcases hd : dictGet (normalize_brand_name brand) BRAND_INDUSTRY_MAPPING
      with _ | industry
    · rcases hf : fuzzy_match (stripSpecial (normalize_brand_name brand))
        with _ | best
      · cases use_ai with
        | false => simp [extract_industry, hb, hd, hf]
        | true =>
          rcases aiRaw with _ | raw
          · simp [extract_industry, hb, hd, hf]
          · simp [extract_industry, hb, hd, hf]
      · simp [extract_industry, hb, hd, hf]
    · simp [extract_industry, hb, hd]

/-- C10: classification is deterministic and idempotent without the AI
step.  `extract_brand` and the campaign-type keyword classifier are pure
state-free functions of their inputs in this embedding; the industry
classifier's only state is the cache session, its classification result does
not depend on that state, and running it a second time on its own output
session changes nothing: the same result comes back and the session reaches
a fixed point (the keyword write is idempotent). -/
theorem classification_idempotent_without_ai
    (brand subject preview html : String)
    (db db1 : List BrandClassificationEntry)
    (h1 : (extract_industry brand subject preview html (some db) false
        none).2 = some db1) :
    extract_industry brand subject preview html (some db1) false none =
      ((extract_industry brand subject preview html (some db) false
        none).1, some db1) := by
  have hfst : (extract_industry brand subject preview html (some db1) false
      none).1 =
      (extract_industry brand subject preview html (some db) false
        none).1 := by
    rw [extract_industry_result_ignores_cache brand subject preview html db1
        false none,
      extract_industry_result_ignores_cache brand subject preview html db
        false none]
  have hsnd : (extract_industry brand subject preview html (some db1) false
      none).2 = some db1 := by
    by_cases hb : brand = "" ∨ brand = "Unknown"
    · simp [extract_industry, hb]
    · rcases hd : dictGet (normalize_brand_name brand)
          BRAND_INDUSTRY_MAPPING with _ | industry
      · rcases hf : fuzzy_match (stripSpecial (normalize_brand_name brand))
            with _ | best
        · simp [extract_industry, hb, hd, hf]
        · have hdb1 : db1 =
              cache_brand_classification db brand best "keyword" conf_0_9 := by
            simp [extract_industry, hb, hd, hf] at h1
            exact h1.symm
          subst hdb1
          simp [extract_industry, hb, hd, hf, cache_keyword_idem]
      · have hdb1 : db1 =
            cache_brand_classification db brand industry "keyword"
              conf_1_0 := by
          simp [extract_industry, hb, hd] at h1
          exact h1.symm
        subst hdb1
        simp [extract_industry, hb, hd, cache_keyword_idem]
  calc extract_industry brand subject preview html (some db1) false none
      = ((extract_industry brand subject preview html (some db1) false
          none).1,
         (extract_industry brand subject preview html (some db1) false
          none).2) := rfl
    _ = ((extract_industry brand subject preview html (some db) false
          none).1, some db1) := by rw [hfst, hsnd]

/-- Witness for C10: the second classification of
"Caratlane - A Tata Product" on the cache produced by the first returns the
same result and leaves the cache exactly as it was. -/
theorem classification_idempotent_without_ai_witness :
    extract_industry "Caratlane - A Tata Product" "" "" ""
        (some [⟨"Caratlane - A Tata Product", "Apparel & Accessories",
          conf_1_0, "keyword"⟩]) false none =
      ((extract_industry "Caratlane - A Tata Product" "" "" "" (some [])
        false none).1,
       some [⟨"Caratlane - A Tata Product", "Apparel & Accessories",
         conf_1_0, "keyword"⟩]) := by
  exact classification_idempotent_without_ai "Caratlane - A Tata Product"
    "" "" "" [] [⟨"Caratlane - A Tata Product", "Apparel & Accessories",
      conf_1_0, "keyword"⟩] (by decide)

/-- C7 counterexample: classifying "Caratlane - A Tata Product" does hit the
exact mapping, but the mapping path carries no subcategory — the result is
not (Apparel & Accessories, Jewelry); `category` comes back `None`
("Jewelry" appears only in the mapping's source comment and in the separate
manual `apply_classifications.py` table). -/
theorem caratlane_subcategory_claim_false :
    ¬ ((extract_industry "Caratlane - A Tata Product" "" "" "" none false
        none).1 =
      ⟨some "Apparel & Accessories", some "Jewelry"⟩) := by decide

/-- C7 amended: "Caratlane - A Tata Product" normalizes to "caratlane",
hits the exact brand-to-industry mapping at "Apparel & Accessories", and
classifies to that industry with no subcategory. -/
theorem caratlane_classification :
    normalize_brand_name "Caratlane - A Tata Product" = "caratlane" ∧
      dictGet "caratlane" BRAND_INDUSTRY_MAPPING =
        some "Apparel & Accessories" ∧
      (extract_industry "Caratlane - A Tata Product" "" "" "" none false
          none).1 =
        ⟨some "Apparel & Accessories", none⟩ := by decide

/-- On an association list with distinct keys, `dictGet` of a member's key
is its value. -/
theorem dictGet_eq_of_mem_nodup {α : Type} (l : List (String × α))
    (hnd : (l.map (·.1)).Nodup) (kv : String × α) (hm : kv ∈ l) :
    dictGet kv.1 l = some kv.2 := by
  induction l with
  | nil => cases hm
  | cons x t ih =>
    rw [List.map_cons, List.nodup_cons] at hnd
    rcases List.mem_cons.mp hm with hx | ht
    · subst hx
      have hfil : t.filter (fun p => decide (p.1 = kv.1)) = [] := by
        rw [List.filter_eq_nil_iff]
        intro a ha
        simp only [decide_eq_true_eq]
        intro hkey
        exact hnd.1 (hkey ▸ List.mem_map_of_mem (·.1) ha)
      unfold dictGet
      simp [List.filter_cons, hfil]
    · have hne : ¬(x.1 = kv.1) := by
        intro hkey
        exact hnd.1 (hkey ▸ List.mem_map_of_mem (·.1) ht)
      unfold dictGet at ih ⊢
      simp only [List.filter_cons, decide_eq_true_eq, hne, if_false]
      exact ih hnd.2 ht

/-- Facts carried by the head of the sorted score list: its score is the
industry's weighted score (via the keyword table), and when the threshold
holds and the runner-up is bounded, every other industry's score is bounded
by 70% of the head's. -/
theorem industry_sorted_head_facts (subject preview html bi : String)
    (bs : Nat) (rest : List (String × Nat))
    (hsorted : (industryScoresOf subject preview html).insertionSort
      scoreGe = (bi, bs) :: rest)
    (hthr : MIN_SCORE_THRESHOLD ≤ bs)
    (hsecond : ∀ j2 s2 rest2, rest = (j2, s2) :: rest2 → 10 * s2 ≤ 7 * bs) :
    MIN_SCORE_THRESHOLD ≤ industryScoreOf bi subject preview html ∧
      ∀ other ∈ INDUSTRY_KEYWORDS, other.1 ≠ bi →
        10 * industryScore other.2 (industryCombined subject preview html)
            (pyLower subject) ≤
          7 * industryScoreOf bi subject preview html := by
  have hsort : List.Sorted scoreGe ((bi, bs) :: rest) := by
    rw [← hsorted]
    exact List.sorted_insertionSort scoreGe _
  have hperm : ((bi, bs) :: rest).Perm
      (industryScoresOf subject preview html) := by
    rw [← hsorted]
    exact List.perm_insertionSort scoreGe _
  have hmem_best : (bi, bs) ∈ industryScoresOf subject preview html :=
    hperm.mem_iff.mp (List.mem_cons_self _ _)
  rcases List.mem_filterMap.mp hmem_best with ⟨ik, hik_mem, hik_eq⟩
  have hspos : 0 < industryScore ik.2
      (industryCombined subject preview html) (pyLower subject) := by
    by_contra hz
    rw [if_neg hz] at hik_eq
    exact Option.noConfusion hik_eq
  rw [if_pos hspos] at hik_eq
  have hpair := Option.some.inj hik_eq
  have hik1 : ik.1 = bi := congrArg Prod.fst hpair
  have hik2 : industryScore ik.2 (industryCombined subject preview html)
      (pyLower subject) = bs := congrArg Prod.snd hpair
  have hnodup : (INDUSTRY_KEYWORDS.map (·.1)).Nodup := by decide
  have hget : dictGet bi INDUSTRY_KEYWORDS = some ik.2 := by
    have hg := dictGet_eq_of_mem_nodup INDUSTRY_KEYWORDS hnodup ik hik_mem
    rw [hik1] at hg
    exact hg
  have hscoreOf : industryScoreOf bi subject preview html = bs := by
    unfold industryScoreOf
    rw [hget]
    exact hik2
  constructor
  · rw [hscoreOf]
    exact hthr
  · intro other hother hne1
    rw [hscoreOf]
    rcases Nat.eq_zero_or_pos (industryScore other.2
        (industryCombined subject preview html) (pyLower subject))
      with hz | hpos
    · rw [hz]
      exact Nat.zero_le _
    · have hmem_other : (other.1, industryScore other.2
          (industryCombined subject preview html) (pyLower subject)) ∈
          industryScoresOf subject preview html := by
        apply List.mem_filterMap.mpr
        exact ⟨other, hother, by rw [if_pos hpos]⟩
      have hmem_sorted := hperm.mem_iff.mpr hmem_other
      have hmem_rest : (other.1, industryScore other.2
          (industryCombined subject preview html) (pyLower subject)) ∈
          rest := by
        rcases List.mem_cons.mp hmem_sorted with heq | hm
        · exact absurd (congrArg Prod.fst heq) hne1
        · exact hm
      rcases hrest : rest with _ | ⟨⟨j2, s2⟩, rest2⟩
      · rw [hrest] at hmem_rest
        cases hmem_rest
      · have hbound := hsecond j2 s2 rest2 hrest
        rw [hrest] at hmem_rest
        have hle2 : industryScore other.2
            (industryCombined subject preview html) (pyLower subject) ≤
            s2 := by
          rcases List.mem_cons.mp hmem_rest with heq | hm
          · exact Nat.le_of_eq (congrArg Prod.snd heq)
          · rw [hrest] at hsort
            exact List.rel_of_sorted_cons hsort.of_cons _ hm
        omega

/-- C2: the keyword-fallback industry classifier returns an industry only
when that industry's weighted keyword score reaches the minimum threshold
(4) and every other industry's score is at most 70% of it (the runner-up
check of the source bounds all the others, since the list is sorted by
descending score); in every other case it returns null. -/
theorem keyword_fallback_threshold_and_ambiguity
    (subject preview html : String) (ind : String)
    (h : extract_industry_by_keywords subject preview html = some ind) :
    MIN_SCORE_THRESHOLD ≤ industryScoreOf ind subject preview html ∧
      ∀ other ∈ INDUSTRY_KEYWORDS, other.1 ≠ ind →
        10 * industryScore other.2 (industryCombined subject preview html)
            (pyLower subject) ≤
          7 * industryScoreOf ind subject preview html := by
  simp only [extract_industry_by_keywords] at h
  split at h
  · exact Option.noConfusion h
  split at h
  · exact Option.noConfusion h
  split at h
  · exact Option.noConfusion h
  rename_i bi bs rest hsorted
  split at h
  · exact Option.noConfusion h
  rename_i hthr
  split at h
  · -- rest empty: no runner-up
    have hbi := Option.some.inj h
    subst hbi
    exact industry_sorted_head_facts subject preview html bi bs []
      hsorted (Nat.le_of_not_lt hthr)
      (fun j2 s2 rest2 hr => absurd hr (by simp))
  · rename_i j2 s2 rest2
    split at h
    · exact Option.noConfusion h
    rename_i hguard
    have hbi := Option.some.inj h
    subst hbi
    exact industry_sorted_head_facts subject preview html bi bs
      ((j2, s2) :: rest2) hsorted (Nat.le_of_not_lt hthr)
      (fun j2' s2' rest2' hr => by
        injection hr with h1 h2
        have hs2 : s2' = s2 := (congrArg Prod.snd h1).symm
        rw [hs2]
        omega)

/-- Witness for C2: a subject carrying only health-pharmacy vocabulary is
classified, its score meets the threshold, and every other industry is
within the 70% bound (here zero). -/
theorem keyword_fallback_threshold_and_ambiguity_witness :
    MIN_SCORE_THRESHOLD ≤ industryScoreOf "Health, Fitness & Wellness"
        "buy medicine pharmacy prescription" "" "" ∧
      ∀ other ∈ INDUSTRY_KEYWORDS, other.1 ≠ "Health, Fitness & Wellness" →
        10 * industryScore other.2 (industryCombined
            "buy medicine pharmacy prescription" "" "") (pyLower
            "buy medicine pharmacy prescription") ≤
          7 * industryScoreOf "Health, Fitness & Wellness"
            "buy medicine pharmacy prescription" "" "" :=
  keyword_fallback_threshold_and_ambiguity
    "buy medicine pharmacy prescription" "" "" "Health, Fitness & Wellness"
    (by decide)

/-- C8: a subject matching `\d+\s*%` classifies immediately as "Sale"
whenever a sale-adjacent word is present, or no review/rating guard word is
present — before and regardless of the general scoring pass (the preview and
html inputs are arbitrary). -/
theorem fast_numeric_discount_path (subject preview html : String)
    (hp : hasNumPercent (pyLower subject) = true)
    (hw : fastSaleWords.any (fun w => pyIn w (pyLower subject)) = true ∨
      fastGuardWords.any (fun w => pyIn w (pyLower subject)) = false) :
    extract_campaign_type_by_keywords subject preview html = some "Sale" := by
  have hsub : subject ≠ "" := by
    intro he
    rw [he] at hp
    exact absurd hp (by decide)
  unfold extract_campaign_type_by_keywords
  rw [if_pos ⟨hsub, hp⟩]
  by_cases hsale : fastSaleWords.any (fun w => pyIn w (pyLower subject)) = true
  · rw [if_pos hsale]
  · rcases hw with hw | hw
    · exact absurd hw hsale
    · rw [if_neg hsale, if_pos (by rw [hw]; rfl)]

/-- Witness for C8: the spec's example subject takes the fast path. -/
theorem fast_numeric_discount_path_witness :
    extract_campaign_type_by_keywords "🔥 FLAT 50% OFF Sitewide!" "" "" =
      some "Sale" :=
  fast_numeric_discount_path "🔥 FLAT 50% OFF Sitewide!" "" "" (by decide)
    (Or.inl (by decide))

/-- Thresholds are always positive (2, 3 or 5). -/
theorem campaignThreshold_pos (t : String) : 0 < campaignThreshold t := by
  unfold campaignThreshold
  split
  · decide
  split
  · decide
  split
  · decide
  · decide

/-- Soundness of the selection loop: run on types of strictly increasing
priority index with an accumulator that is a passing type of strictly
smaller index than everything remaining (the loop's real invariant — the
top-level call starts from `none` on `priority_types` itself), the returned
pair is a passing type with its own score, never smaller than the
accumulator's score, and at least the score of every passing type of the
list: the "half-score priority override" branch is unreachable, so only a
strictly larger score ever displaces the running best. -/
theorem selectBest_sound (scoreOf : String → Nat) :
    ∀ (l : List String) (acc : Option (String × Nat)),
      l.Pairwise (fun a b => List.indexOf a priority_types <
        List.indexOf b priority_types) →
      (∀ t0 s0, acc = some (t0, s0) →
        s0 = scoreOf t0 ∧ 0 < s0 ∧ campaignThreshold t0 ≤ s0 ∧
        ∀ u ∈ l, List.indexOf t0 priority_types <
          List.indexOf u priority_types) →
      ∀ t s, selectBest scoreOf l acc = some (t, s) →
      (s = scoreOf t ∧ 0 < s ∧ campaignThreshold t ≤ s) ∧
        (∀ t0 s0, acc = some (t0, s0) → s0 ≤ s) ∧
        (∀ u ∈ l, 0 < scoreOf u → campaignThreshold u ≤ scoreOf u →
          scoreOf u ≤ s) := by
  intro l
  induction l with
  | nil =>
    intro acc _ hacc t s hres
    simp only [selectBest] at hres
    rcases hacc t s hres with ⟨h1, h2, h3, _⟩
    refine ⟨⟨h1, h2, h3⟩, ?_, ?_⟩
    · intro t0 s0 h0
      rw [h0] at hres
      exact Nat.le_of_eq (congrArg Prod.snd (Option.some.inj hres))
    · intro u hu
      cases hu
  | cons t1 rest ih =>
    intro acc hpair hacc t s hres
    have hpt : ∀ u ∈ rest, List.indexOf t1 priority_types <
        List.indexOf u priority_types :=
      fun u hu => List.rel_of_pairwise_cons hpair hu
    have hpair' := hpair.of_cons
    simp only [selectBest] at hres
    by_cases hp1 : 0 < scoreOf t1 ∧ campaignThreshold t1 ≤ scoreOf t1
    · rw [if_pos hp1] at hres
      cases hAcc : acc with
      | none =>
        rw [hAcc] at hres
        replace hres : selectBest scoreOf rest (some (t1, scoreOf t1)) =
          some (t, s) := hres
        have hacc' : ∀ t0 s0, (some (t1, scoreOf t1) :
            Option (String × Nat)) = some (t0, s0) →
            s0 = scoreOf t0 ∧ 0 < s0 ∧ campaignThreshold t0 ≤ s0 ∧
            ∀ u ∈ rest, List.indexOf t0 priority_types <
              List.indexOf u priority_types := by
          intro t0 s0 h0
          have hpp := Option.some.inj h0
          have ht0 : t1 = t0 := congrArg Prod.fst hpp
          have hs0 : scoreOf t1 = s0 := congrArg Prod.snd hpp
          subst ht0
          exact ⟨hs0.symm, hs0 ▸ hp1.1, hs0 ▸ hp1.2, hpt⟩
        rcases ih (some (t1, scoreOf t1)) hpair' hacc' t s hres with
          ⟨hfacts, hge, hmax⟩
        refine ⟨hfacts, ?_, ?_⟩
        · intro t0 s0 h0
          exact Option.noConfusion h0
        · intro u hu hu1 hu2
          rcases List.mem_cons.mp hu with he | hm
          · subst he
            exact hge u (scoreOf u) rfl
          · exact hmax u hm hu1 hu2
      | some bpair =>
        rcases bpair with ⟨bt, bs⟩
        rw [hAcc] at hres
        rcases hacc bt bs hAcc with ⟨hbs, hbpos, hbthr, hbidx⟩
        have hidx1 : List.indexOf bt priority_types <
            List.indexOf t1 priority_types :=
          hbidx t1 (List.mem_cons_self _ _)
        replace hres : (if List.indexOf t1 priority_types <
              List.indexOf bt priority_types then
            if 2 * scoreOf t1 ≥ bs then
              selectBest scoreOf rest (some (t1, scoreOf t1))
            else selectBest scoreOf rest (some (bt, bs))
          else if bs < scoreOf t1 then
            selectBest scoreOf rest (some (t1, scoreOf t1))
          else selectBest scoreOf rest (some (bt, bs))) = some (t, s) := hres
        rw [if_neg (Nat.not_lt_of_lt hidx1)] at hres
        by_cases hlt : bs < scoreOf t1
        · rw [if_pos hlt] at hres
          have hacc' : ∀ t0 s0, (some (t1, scoreOf t1) :
              Option (String × Nat)) = some (t0, s0) →
              s0 = scoreOf t0 ∧ 0 < s0 ∧ campaignThreshold t0 ≤ s0 ∧
              ∀ u ∈ rest, List.indexOf t0 priority_types <
                List.indexOf u priority_types := by
            intro t0 s0 h0
            have hpp := Option.some.inj h0
            have ht0 : t1 = t0 := congrArg Prod.fst hpp
            have hs0 : scoreOf t1 = s0 := congrArg Prod.snd hpp
            subst ht0
            exact ⟨hs0.symm, hs0 ▸ hp1.1, hs0 ▸ hp1.2, hpt⟩
          rcases ih (some (t1, scoreOf t1)) hpair' hacc' t s hres with
            ⟨hfacts, hge, hmax⟩
          refine ⟨hfacts, ?_, ?_⟩
          · intro t0 s0 h0
            have hpp := Option.some.inj h0
            have hs0 : bs = s0 := congrArg Prod.snd hpp
            have h1s : scoreOf t1 ≤ s := hge t1 (scoreOf t1) rfl
            omega
          · intro u hu hu1 hu2
            rcases List.mem_cons.mp hu with he | hm
            · subst he
              exact hge u (scoreOf u) rfl
            · exact hmax u hm hu1 hu2
        · rw [if_neg hlt] at hres
          have hacc' : ∀ t0 s0, (some (bt, bs) :
              Option (String × Nat)) = some (t0, s0) →
              s0 = scoreOf t0 ∧ 0 < s0 ∧ campaignThreshold t0 ≤ s0 ∧
              ∀ u ∈ rest, List.indexOf t0 priority_types <
                List.indexOf u priority_types := by
            intro t0 s0 h0
            have hpp := Option.some.inj h0
            have ht0 : bt = t0 := congrArg Prod.fst hpp
            have hs0 : bs = s0 := congrArg Prod.snd hpp
            subst ht0
            exact ⟨hs0 ▸ hbs, hs0 ▸ hbpos, hs0 ▸ hbthr,
              fun u hu => hbidx u (List.mem_cons_of_mem _ hu)⟩
          rcases ih (some (bt, bs)) hpair' hacc' t s hres with
            ⟨hfacts, hge, hmax⟩
          refine ⟨hfacts, ?_, ?_⟩
          · intro t0 s0 h0
            have hpp := Option.some.inj h0
            have hs0 : bs = s0 := congrArg Prod.snd hpp
            have hbss : bs ≤ s := hge bt bs rfl
            omega
          · intro u hu hu1 hu2
            rcases List.mem_cons.mp hu with he | hm
            · subst he
              have hbss : bs ≤ s := hge bt bs rfl
              omega
            · exact hmax u hm hu1 hu2
    · rw [if_neg hp1] at hres
      have hacc' : ∀ t0 s0, acc = some (t0, s0) →
          s0 = scoreOf t0 ∧ 0 < s0 ∧ campaignThreshold t0 ≤ s0 ∧
          ∀ u ∈ rest, List.indexOf t0 priority_types <
            List.indexOf u priority_types := by
        intro t0 s0 h0
        rcases hacc t0 s0 h0 with ⟨h1, h2, h3, h4⟩
        exact ⟨h1, h2, h3, fun u hu => h4 u (List.mem_cons_of_mem _ hu)⟩
      rcases ih acc hpair' hacc' t s hres with ⟨hfacts, hge, hmax⟩
      refine ⟨hfacts, hge, ?_⟩
      intro u hu hu1 hu2
      rcases List.mem_cons.mp hu with he | hm
      · subst he
        exact absurd ⟨hu1, hu2⟩ hp1
      · exact hmax u hm hu1 hu2

/-- Once the accumulator holds a candidate, the loop never returns none. -/
theorem selectBest_some_of_acc (scoreOf : String → Nat) :
    ∀ (l : List String) (x : String × Nat),
      selectBest scoreOf l (some x) ≠ none := by
  intro l
  induction l with
  | nil =>
    intro x h
    simp only [selectBest] at h
    exact Option.noConfusion h
  | cons t1 rest ih =>
    intro x h
    rcases x with ⟨bt, bs⟩
    simp only [selectBest] at h
    by_cases hp1 : 0 < scoreOf t1 ∧ campaignThreshold t1 ≤ scoreOf t1
    · rw [if_pos hp1] at h
      replace h : (if List.indexOf t1 priority_types <
            List.indexOf bt priority_types then
          if 2 * scoreOf t1 ≥ bs then
            selectBest scoreOf rest (some (t1, scoreOf t1))
          else selectBest scoreOf rest (some (bt, bs))
        else if bs < scoreOf t1 then
          selectBest scoreOf rest (some (t1, scoreOf t1))
        else selectBest scoreOf rest (some (bt, bs))) = none := h
      split at h
      · split at h
        · exact ih _ h
        · exact ih _ h
      · split at h
        · exact ih _ h
        · exact ih _ h
    · rw [if_neg hp1] at h
      exact ih _ h

/-- The loop returns none from an empty accumulator exactly when no type
passes (positive score reaching its threshold). -/
theorem selectBest_none_iff (scoreOf : String → Nat) :
    ∀ (l : List String),
      selectBest scoreOf l none = none ↔
        ∀ u ∈ l, ¬(0 < scoreOf u ∧ campaignThreshold u ≤ scoreOf u) := by
  intro l
  induction l with
  | nil =>
    simp [selectBest]
  | cons t1 rest ih =>
    constructor
    · intro h u hu
      simp only [selectBest] at h
      by_cases hp1 : 0 < scoreOf t1 ∧ campaignThreshold t1 ≤ scoreOf t1
      · rw [if_pos hp1] at h
        replace h : selectBest scoreOf rest (some (t1, scoreOf t1)) =
          none := h
        exact absurd h (selectBest_some_of_acc scoreOf rest _)
      · rw [if_neg hp1] at h
        rcases List.mem_cons.mp hu with he | hm
        · subst he
          exact hp1
        · exact (ih.mp h) u hm
    · intro hall
      simp only [selectBest]
      have hp1 := hall t1 (List.mem_cons_self _ _)
      rw [if_neg hp1]
      exact ih.mpr (fun u hu => hall u (List.mem_cons_of_mem _ hu))

/-- Counting formulation of a per-source score: adding `w` for each keyword
contained in the text equals `w` times the number of contained keywords. -/
theorem keyword_fold_count (text : String) (w : Nat) :
    ∀ (kws : List String) (acc : Nat),
      kws.foldl (fun a kw => if pyIn kw text then a + w else a) acc =
        acc + w * (kws.filter (fun kw => pyIn kw text)).length := by
  intro kws
  induction kws with
  | nil => intro acc; simp
  | cons k t ih =>
    intro acc
    simp only [List.foldl_cons, List.filter_cons]
    by_cases hk : pyIn k text
    · rw [if_pos hk, if_pos hk, ih]
      simp only [List.length_cons]
      ring
    · rw [if_neg hk, if_neg hk, ih]

/-- The number of keywords of campaign type `t` contained in a text. -/
def keywordHits (t text : String) : Nat :=
  ((campaignKeywords t).filter (fun kw => pyIn kw text)).length

/-- When the fast numeric-discount path does not fire, the keyword campaign
classifier is the scoring pass: the selection loop over `priority_types`
from an empty accumulator (or none when there is no text at all). -/
theorem extract_campaign_keywords_eq_select (subject preview html : String)
    (hfast : fastSalePath subject = false) :
    extract_campaign_type_by_keywords subject preview html =
      (if (campaignTextParts subject preview html).isEmpty then none
       else (selectBest (fun t => campaignScoreOf t subject preview html)
        priority_types none).map (·.1)) := by
  unfold extract_campaign_type_by_keywords
  by_cases houter : subject ≠ "" ∧ hasNumPercent (pyLower subject) = true
  · have hout' : (decide (subject ≠ "") &&
        hasNumPercent (pyLower subject)) = true := by
      simp [houter.1, houter.2]
    have hrest : (fastSaleWords.any (fun w => pyIn w (pyLower subject)) ||
        !(fastGuardWords.any (fun w => pyIn w (pyLower subject)))) =
        false := by
      cases hsg : (fastSaleWords.any (fun w => pyIn w (pyLower subject)) ||
          !(fastGuardWords.any (fun w => pyIn w (pyLower subject)))) with
      | false => rfl
      | true =>
        exfalso
        unfold fastSalePath at hfast
        rw [hsg, Bool.and_true, hout'] at hfast
        exact Bool.noConfusion hfast
    rcases Bool.or_eq_false_iff.mp hrest with ⟨hsale, hguard⟩
    rw [if_pos houter, if_neg (by rw [hsale]; exact Bool.false_ne_true),
      if_neg (by rw [hguard]; exact Bool.false_ne_true)]
  · rw [if_neg houter]

/-- C6 amended: in the scoring pass of the campaign-type keyword path
(fast numeric-discount path not firing), (i) keyword hits are weighted by
source — subject 5, preview 2, body 1; (ii) a returned type always reaches
its type-specific threshold, and its score is at least the score of every
type reaching its own threshold (a lower-priority type displaces the
running best only on a strictly greater score — the half-score
priority-override branch of the source is unreachable because the loop runs
in priority order); (iii) the result is null exactly when no type reaches
its threshold. -/
theorem campaign_keyword_weights_thresholds_selection
    (subject preview html : String) (hfast : fastSalePath subject = false) :
    (subject ≠ "" → preview ≠ "" → html ≠ "" →
      ∀ t, campaignScoreOf t subject preview html =
        5 * keywordHits t (pyLower subject) +
          2 * keywordHits t (pyTake 500 (pyLower preview)) +
          1 * keywordHits t (pyTake 2000 (pyLower html))) ∧
      (∀ t, extract_campaign_type_by_keywords subject preview html =
          some t →
        campaignThreshold t ≤ campaignScoreOf t subject preview html ∧
          ∀ u ∈ priority_types,
            campaignThreshold u ≤ campaignScoreOf u subject preview html →
              campaignScoreOf u subject preview html ≤
                campaignScoreOf t subject preview html) ∧
      (extract_campaign_type_by_keywords subject preview html = none ↔
        ∀ u ∈ priority_types,
          ¬(campaignThreshold u ≤
            campaignScoreOf u subject preview html)) := by
  refine ⟨?_, ?_, ?_⟩
  · intro hs hp hh t
    unfold campaignScoreOf campaignTextParts campaignScore
    rw [if_pos hs, if_pos hp, if_pos hh]
    simp only [List.cons_append, List.nil_append, List.foldl_cons,
      List.foldl_nil]
    rw [keyword_fold_count, keyword_fold_count, keyword_fold_count]
    unfold keywordHits
    rw [if_neg (by decide : ¬(("preview" : String) = "subject")),
      if_neg (by decide : ¬(("html" : String) = "subject")),
      if_neg (by decide : ¬(("html" : String) = "preview"))]
    simp only [if_true]
    omega
  · intro t hres
    rw [extract_campaign_keywords_eq_select subject preview html hfast]
      at hres
    by_cases hemp : (campaignTextParts subject preview html).isEmpty
    · rw [if_pos hemp] at hres
      exact Option.noConfusion hres
    · rw [if_neg hemp] at hres
      rcases Option.map_eq_some'.mp hres with ⟨⟨t', s⟩, hsel, ht'⟩
      have htt : t' = t := ht'
      subst htt
      have hmain := selectBest_sound
        (fun u => campaignScoreOf u subject preview html) priority_types
        none (by decide) (by intro t0 s0 h0; exact Option.noConfusion h0)
        t' s hsel
      obtain ⟨⟨hseq, _, hthr⟩, -, hmax⟩ := hmain
      rw [hseq] at hthr
      constructor
      · exact hthr
      · intro u hu huthr
        have h0u : 0 < campaignScoreOf u subject preview html :=
          Nat.lt_of_lt_of_le (campaignThreshold_pos u) huthr
        have hle := hmax u hu h0u huthr
        rw [hseq] at hle
        exact hle
  · rw [extract_campaign_keywords_eq_select subject preview html hfast]
    by_cases hemp : (campaignTextParts subject preview html).isEmpty
    · rw [if_pos hemp]
      have hnil : campaignTextParts subject preview html = [] := by
        rwa [List.isEmpty_iff] at hemp
      constructor
      · intro _ u _ hthr
        have hz : campaignScoreOf u subject preview html = 0 := by
          unfold campaignScoreOf
          rw [hnil]
          rfl
        rw [hz] at hthr
        have := campaignThreshold_pos u
        omega
      · intro _
        rfl
    · rw [if_neg hemp]
      constructor
      · intro hnone u hu hthr
        have hsel : selectBest
            (fun u => campaignScoreOf u subject preview html)
            priority_types none = none := Option.map_eq_none'.mp hnone
        have hall := (selectBest_none_iff _ priority_types).mp hsel u hu
        exact hall ⟨Nat.lt_of_lt_of_le (campaignThreshold_pos u) hthr, hthr⟩
      · intro hall
        apply Option.map_eq_none'.mpr
        apply (selectBest_none_iff _ priority_types).mpr
        intro u hu hc
        exact hall u hu hc.2

/-- C6 counterexample: the spec says a higher-priority type displaces the
current best when its own score is at least half of the best's.  On the
subject below, Confirmation (priority index 0) clears its threshold with
score 10 and Sale scores 20 — exactly half — yet the function returns Sale:
the half-score priority override never fires, because the selection loop
visits types in priority order, so the current best always has the smaller
index. -/
theorem priority_override_claim_false :
    ∃ subject t u,
      extract_campaign_type_by_keywords subject "" "" = some t ∧
      u ∈ priority_types ∧
      List.indexOf u priority_types < List.indexOf t priority_types ∧
      campaignThreshold u ≤ campaignScoreOf u subject "" "" ∧
      2 * campaignScoreOf u subject "" "" ≥
        campaignScoreOf t subject "" "" ∧
      u ≠ t :=
  ⟨"confirm subscription verification deal save promo hurry", "Sale",
    "Confirmation", by decide⟩

/-- Witness for C6: on the subject "order shipped tracking" (fast path off)
the weights formula holds with concrete preview and body texts. -/
theorem campaign_keyword_weights_thresholds_selection_witness :
    campaignScoreOf "Order Update" "order shipped tracking" "x" "y" =
      5 * keywordHits "Order Update" (pyLower "order shipped tracking") +
        2 * keywordHits "Order Update" (pyTake 500 (pyLower "x")) +
        1 * keywordHits "Order Update" (pyTake 2000 (pyLower "y")) :=
  (campaign_keyword_weights_thresholds_selection "order shipped tracking"
      "x" "y" (by decide)).1 (by decide) (by decide) (by decide)
      "Order Update"

/-! ## C3: totality of extract_brand -/

/-- Every brand name in the synonym table is nonempty. -/
theorem brand_mapping_values_nonempty : ∀ kv ∈ BRAND_MAPPING, kv.2 ≠ "" := by
  decide

/-- A string of positive length is nonempty. -/
theorem ne_empty_of_length_pos {s : String} (h : 0 < s.length) : s ≠ "" := by
  intro he
  subst he
  exact absurd h (by decide)

/-- `clean_brand_name` only returns strings of length at least 2 (source
line 1221: results shorter than 2 characters become `None`). -/
theorem clean_brand_name_length {n c : String}
    (h : clean_brand_name n = some c) : 2 ≤ c.length := by
  unfold clean_brand_name at h
  split at h
  · exact Option.noConfusion h
  · simp only [] at h
    split at h
    · exact Option.noConfusion h
    · rename_i hcond
      injection h with h1
      subst h1
      rw [pyTitle_length]
      push_neg at hcond
      exact hcond.2

/-- `clean_brand_name` never returns an empty string. -/
theorem clean_brand_name_ne_empty {n c : String}
    (h : clean_brand_name n = some c) : c ≠ "" :=
  ne_empty_of_length_pos
    (Nat.lt_of_lt_of_le (by decide) (clean_brand_name_length h))

/-- Membership in an `optCand` list pins the option to the candidate. -/
theorem mem_optCand {o : Option String} {k : Nat} {c : String × Nat}
    (h : c ∈ optCand o k) : o = some c.1 := by
  cases o with
  | none => exact absurd h (List.not_mem_nil c)
  | some a =>
    rcases List.mem_singleton.mp h with rfl
    rfl

/-- The domain brand part is always longer than 2 characters (the filter on
line 1270 of the source). -/
theorem domainBrandPart_length {sender p : String}
    (h : domainBrandPart sender = some p) : 2 < p.length := by
  unfold domainBrandPart at h
  rcases Option.bind_eq_some.mp h with ⟨labels, hl, h2⟩
  rcases Option.map_eq_some'.mp h2 with ⟨q, hq, h3⟩
  have hpred := List.find?_some hq
  subst h3
  have hq2 := (Bool.and_eq_true _ _).mp hpred
  exact of_decide_eq_true hq2.2

/-- A value looked up in the brand table is nonempty. -/
theorem dictGet_brand_mapping_nonempty {k b : String}
    (h : dictGet k BRAND_MAPPING = some b) : b ≠ "" := by
  unfold dictGet at h
  rcases Option.map_eq_some'.mp h with ⟨kv, hlast, hb⟩
  have hmem := List.mem_of_mem_filter (List.mem_of_mem_getLast? hlast)
  subst hb
  exact brand_mapping_values_nonempty kv hmem

/-- A cleaned-and-gated subject capture is nonempty. -/
theorem subjectCandFrom_ne_empty {g : Option String} {c : String}
    (h : subjectCandFrom g = some c) : c ≠ "" := by
  unfold subjectCandFrom at h
  rcases Option.bind_eq_some.mp h with ⟨m, _, h2⟩
  rcases Option.bind_eq_some.mp h2 with ⟨cl, hcl, h3⟩
  split at h3
  · injection h3 with h3
    subst h3
    exact clean_brand_name_ne_empty hcl
  · exact Option.noConfusion h3

/-- A subject-line brand candidate is nonempty. -/
theorem subjectBrandCandidate_ne_empty {subject c : String}
    (h : subjectBrandCandidate subject = some c) : c ≠ "" := by
  unfold subjectBrandCandidate at h
  split at h
  · rename_i c1 heq
    injection h with h
    subst h
    exact subjectCandFrom_ne_empty heq
  · split at h
    · rename_i c1 heq
      injection h with h
      subst h
      exact subjectCandFrom_ne_empty heq
    · exact subjectCandFrom_ne_empty h

/-- Every candidate string assembled by `extract_brand` is nonempty: each
one either passed through `clean_brand_name` or is the title-cased domain
part, which is longer than 2 characters. -/
theorem qualifying_candidates_ne_empty (sender : String) (sig : HtmlSignals)
    (subject : String) :
    ∀ c ∈ qualifying_candidates sender sig subject, c.1 ≠ "" := by
  intro c hc
  unfold qualifying_candidates at hc
  rcases List.mem_append.mp hc with hc | hsubj
  · rcases List.mem_append.mp hc with hc | hhtml
    · rcases List.mem_append.mp hc with hdisp | hdom
      · split at hdisp
        · have ho := mem_optCand hdisp
          unfold displayNameCandidate at ho
          rcases Option.bind_eq_some.mp ho with ⟨d, _, h2⟩
          rcases Option.bind_eq_some.mp h2 with ⟨cl, hcl, h3⟩
          split at h3
          · injection h3 with h3
            rw [← h3]
            exact clean_brand_name_ne_empty hcl
          · exact Option.noConfusion h3
        · exact absurd hdisp (List.not_mem_nil c)
      · split at hdom
        · split at hdom
          · rename_i p hp
            split at hdom
            · rcases List.mem_singleton.mp hdom with rfl
              exact ne_empty_of_length_pos
                (by rw [pyTitle_length]
                    exact Nat.lt_of_lt_of_le (by decide)
                      (Nat.le_of_lt (domainBrandPart_length hp)))
            · exact absurd hdom (List.not_mem_nil c)
          · exact absurd hdom (List.not_mem_nil c)
        · exact absurd hdom (List.not_mem_nil c)
    · unfold htmlCandidates at hhtml
      rcases List.mem_append.mp hhtml with h5 | hbody
      · rcases List.mem_append.mp h5 with h4 | hfoot
        · rcases List.mem_append.mp h4 with h3 | hlogo
          · rcases List.mem_append.mp h3 with h2 | happ
            · rcases List.mem_append.mp h2 with hog | htw
              · have ho := mem_optCand hog
                rcases Option.bind_eq_some.mp ho with ⟨s, _, hcl⟩
                exact clean_brand_name_ne_empty hcl
              · have ho := mem_optCand htw
                rcases Option.bind_eq_some.mp ho with ⟨s, _, hcl⟩
                exact clean_brand_name_ne_empty hcl
            · have ho := mem_optCand happ
              rcases Option.bind_eq_some.mp ho with ⟨s, _, hcl⟩
              exact clean_brand_name_ne_empty hcl
          · have ho := mem_optCand hlogo
            rcases Option.bind_eq_some.mp ho with ⟨s, _, hcl⟩
            split at hcl
            · exact clean_brand_name_ne_empty hcl
            · exact Option.noConfusion hcl
        · have ho := mem_optCand hfoot
          split at ho
          · rcases Option.bind_eq_some.mp ho with ⟨g, _, h2⟩
            rcases Option.bind_eq_some.mp h2 with ⟨cl, hcl, h3⟩
            split at h3
            · injection h3 with h3
              rw [← h3]
              exact clean_brand_name_ne_empty hcl
            · exact Option.noConfusion h3
          · exact Option.noConfusion ho
      · have ho := mem_optCand hbody
        split at ho
        · rcases Option.bind_eq_some.mp ho with ⟨s, _, hcl⟩
          exact clean_brand_name_ne_empty hcl
        · exact Option.noConfusion ho
  · split at hsubj
    · exact subjectBrandCandidate_ne_empty (mem_optCand hsubj)
    · exact absurd hsubj (List.not_mem_nil c)

/-- C3 counterexample: the spec says `extract_brand` returns "Unknown"
exactly when no candidate qualifies.  With an og:site_name of "Unknown"
(and empty sender/subject), a candidate qualifies — cleaning leaves
"Unknown" untouched — and it is returned as the best candidate, so the
output "Unknown" does not certify an empty candidate list. -/
theorem unknown_exactly_when_claim_false :
    ∃ sig, extract_brand "" sig "" = "Unknown" ∧
      qualifying_candidates "" sig "" ≠ [] :=
  ⟨⟨some "Unknown", none, none, none, false, none, none⟩, by decide, by decide⟩

/-- C3 amended: `extract_brand` always returns a nonempty string — the two
early returns and the synonym re-check return brand-table values, all
nonempty, and every assembled candidate is nonempty — and when no strategy
yields anything (both early lookups miss and the candidate list is empty)
the result is the sentinel "Unknown". -/
theorem extract_brand_total_and_unknown (sender subject : String)
    (sig : HtmlSignals) :
    extract_brand sender sig subject ≠ "" ∧
      (sender_known_brand sender = none →
        domain_known_brand sender = none →
        qualifying_candidates sender sig subject = [] →
        extract_brand sender sig subject = "Unknown") := by
  constructor
  · unfold extract_brand
    cases hskb : sender_known_brand sender with
    | some b =>
      unfold sender_known_brand at hskb
      split at hskb
      · rcases Option.map_eq_some'.mp hskb with ⟨kv, hfind, hb⟩
        subst hb
        exact brand_mapping_values_nonempty kv
          (List.mem_of_find?_eq_some hfind)
      · exact Option.noConfusion hskb
    | none =>
      cases hdkb : domain_known_brand sender with
      | some b =>
        unfold domain_known_brand at hdkb
        split at hdkb
        · rcases Option.bind_eq_some.mp hdkb with ⟨p, _, hget⟩
          exact dictGet_brand_mapping_nonempty hget
        · exact Option.noConfusion hdkb
      | none =>
        cases hsort : (qualifying_candidates sender sig subject).insertionSort
            scoreGe with
        | nil => decide
        | cons top rest =>
          show (match (top :: rest).findSome? (fun bs =>
              BRAND_MAPPING.findSome? (fun kv =>
                if pyIn kv.1 (pyLower bs.1) || pyIn (pyLower bs.1) kv.1 then
                  some kv.2
                else none)) with
            | some mapped => mapped
            | none => top.1) ≠ ""
          split
          · rename_i mapped hfind
            rcases List.exists_of_findSome?_eq_some hfind with ⟨bs, _, hbs⟩
            rcases List.exists_of_findSome?_eq_some hbs with ⟨kv, hkv, hif⟩
            split at hif
            · injection hif with hif
              subst hif
              exact brand_mapping_values_nonempty kv hkv
            · exact Option.noConfusion hif
          · have htop : top ∈ qualifying_candidates sender sig subject := by
              have hmem : top ∈ (qualifying_candidates sender sig
                  subject).insertionSort scoreGe := by
                rw [hsort]
                exact List.mem_cons_self top rest
              exact (List.perm_insertionSort scoreGe _).mem_iff.mp hmem
            exact qualifying_candidates_ne_empty sender sig subject top htop
  · intro h1 h2 h3
    unfold extract_brand
    rw [h1, h2, h3]
    rfl

/-- Witness for C3: on an empty sender, empty signals and an unstructured
subject nothing qualifies and the sentinel is returned (and it is
nonempty). -/
theorem extract_brand_total_and_unknown_witness :
    extract_brand "x" emptySignals "hello" ≠ "" ∧
      extract_brand "x" emptySignals "hello" = "Unknown" :=
  ⟨(extract_brand_total_and_unknown "x" "hello" emptySignals).1,
   (extract_brand_total_and_unknown "x" "hello" emptySignals).2 (by decide)
     (by decide) (by decide)⟩

/-! ## C9: closed-enum helpers -/

/-- Every key of the industry keyword table is a member of the closed
industry enum. -/
theorem industry_keywords_keys_industries :
    ∀ ik ∈ INDUSTRY_KEYWORDS, ik.1 ∈ INDUSTRIES := by decide

/-- Every value of the brand-to-industry mapping is a member of the closed
industry enum. -/
theorem brand_industry_mapping_values_industries :
    ∀ kv ∈ BRAND_INDUSTRY_MAPPING, kv.2 ∈ INDUSTRIES := by decide

/-- A successful dict lookup returns a stored value. -/
theorem dictGet_mem {α : Type} {k : String} {d : List (String × α)} {v : α}
    (h : dictGet k d = some v) : ∃ kv ∈ d, kv.2 = v := by
  unfold dictGet at h
  rcases Option.map_eq_some'.mp h with ⟨kv, hlast, hv⟩
  exact ⟨kv, List.mem_of_mem_filter (List.mem_of_mem_getLast? hlast), hv⟩

/-- Inserting into a dict list only introduces the inserted value. -/
theorem mem_pyDictInsert {α : Type} {l : List (String × α)}
    {x kv : String × α} (h : kv ∈ pyDictInsert l x) :
    kv ∈ l ∨ kv.2 = x.2 := by
  induction l with
  | nil =>
    rcases List.mem_singleton.mp h with rfl
    exact Or.inr rfl
  | cons hd t ih =>
    obtain ⟨k, v⟩ := hd
    unfold pyDictInsert at h
    split at h
    · rcases List.mem_cons.mp h with rfl | hm
      · exact Or.inr rfl
      · exact Or.inl (List.mem_cons_of_mem _ hm)
    · rcases List.mem_cons.mp h with rfl | hm
      · exact Or.inl (List.mem_cons_self _ _)
      · rcases ih hm with h1 | h2
        · exact Or.inl (List.mem_cons_of_mem _ h1)
        · exact Or.inr h2

/-- Every value held by the built dict is a value of the literal list. -/
theorem pyDict_values {α : Type} (l : List (String × α)) :
    ∀ kv ∈ pyDict l, ∃ kv2 ∈ l, kv2.2 = kv.2 := by
  suffices h : ∀ acc kv, kv ∈ l.foldl pyDictInsert acc →
      kv ∈ acc ∨ ∃ kv2 ∈ l, kv2.2 = kv.2 by
    intro kv hkv
    rcases h [] kv hkv with hin | hex
    · exact absurd hin (List.not_mem_nil kv)
    · exact hex
  induction l with
  | nil =>
    intro acc kv h
    exact Or.inl h
  | cons x t ih =>
    intro acc kv h
    rcases ih (pyDictInsert acc x) kv h with hin | hex
    · rcases mem_pyDictInsert hin with h1 | h2
      · exact Or.inl h1
      · exact Or.inr ⟨x, List.mem_cons_self _ _, h2.symm⟩
    · rcases hex with ⟨kv2, hm, he⟩
      exact Or.inr ⟨kv2, List.mem_cons_of_mem _ hm, he⟩

/-- The fuzzy-match accumulator invariant: whatever the loop returns is
either the initial best or one of the industries in the list. -/
theorem fuzzyGo_mem (bn : String) (P : String → Prop) :
    ∀ (l : List (String × String)) (best : Option String) (blen : Nat),
      (∀ kv ∈ l, P kv.2) → (∀ b, best = some b → P b) →
      ∀ r, fuzzyGo bn l best blen = some r → P r := by
  intro l
  induction l with
  | nil =>
    intro best blen _ hbest r hr
    exact hbest r hr
  | cons kv rest ih =>
    intro best blen hl hbest r hr
    obtain ⟨key, industry⟩ := kv
    have hP : P industry := hl (key, industry) (List.mem_cons_self _ _)
    unfold fuzzyGo at hr
    simp only [] at hr
    by_cases heq : stripSpecial key = bn
    · rw [if_pos heq] at hr
      injection hr with hr
      subst hr
      exact hP
    · rw [if_neg heq] at hr
      refine ih _ _ (fun kv2 h2 => hl kv2 (List.mem_cons_of_mem _ h2))
        ?_ r hr
      intro b hb
      have hcase : some industry = some b ∨ best = some b := by
        repeat' split at hb
        all_goals try exact Or.inl hb
        all_goals exact Or.inr hb
      rcases hcase with h1 | h2
      · injection h1 with h1
        rw [← h1]
        exact hP
      · exact hbest b h2

/-- A fuzzy-match result is a value of the brand-to-industry dict, hence a
member of the industry enum. -/
theorem fuzzy_match_mem {bn r : String} (h : fuzzy_match bn = some r) :
    r ∈ INDUSTRIES := by
  refine fuzzyGo_mem bn (· ∈ INDUSTRIES) (pyDict BRAND_INDUSTRY_MAPPING)
    none 0 ?_ (fun b hb => Option.noConfusion hb) r h
  intro kv hkv
  rcases pyDict_values BRAND_INDUSTRY_MAPPING kv hkv with ⟨kv2, hm, he⟩
  rw [← he]
  exact brand_industry_mapping_values_industries kv2 hm

/-- A keyword-fallback industry is a key of the keyword table, hence a
member of the industry enum. -/
theorem extract_industry_by_keywords_mem {subject preview html i : String}
    (h : extract_industry_by_keywords subject preview html = some i) :
    i ∈ INDUSTRIES := by
  unfold extract_industry_by_keywords at h
  split at h
  · exact Option.noConfusion h
  · simp only [] at h
    split at h
    · exact Option.noConfusion h
    · split at h
      · exact Option.noConfusion h
      · rename_i best_industry best_score rest heq
        have hmem : (best_industry, best_score) ∈
            industryScoresOf subject preview html := by
          have hm2 : (best_industry, best_score) ∈
              (industryScoresOf subject preview html).insertionSort
                scoreGe := by
            rw [heq]
            exact List.mem_cons_self _ _
          exact (List.perm_insertionSort scoreGe _).mem_iff.mp hm2
        have hkey : best_industry ∈ INDUSTRIES := by
          rcases List.mem_filterMap.mp hmem with ⟨ik, hik, hif⟩
          simp only [] at hif
          split at hif
          · injection hif with hif
            injection hif with h1 h2
            rw [← h1]
            exact industry_keywords_keys_industries ik hik
          · exact Option.noConfusion hif
        split at h
        · exact Option.noConfusion h
        · split at h
          · injection h with h
            subst h
            exact hkey
          · split at h
            · exact Option.noConfusion h
            · injection h with h
              subst h
              exact hkey

/-- Validation of the raw industry field: the result is in the closed enum,
and is either the documented default or the raw value itself. -/
theorem validate_industry_fact (ri : Option String) :
    ((match ri with
      | some i => if INDUSTRIES.contains i then i
                  else "General / Department Store"
      | none => "General / Department Store") ∈ INDUSTRIES) ∧
    ((match ri with
      | some i => if INDUSTRIES.contains i then i
                  else "General / Department Store"
      | none => "General / Department Store") =
        "General / Department Store" ∨
      ri = some (match ri with
        | some i => if INDUSTRIES.contains i then i
                    else "General / Department Store"
        | none => "General / Department Store")) := by
  cases ri with
  | none => exact ⟨by decide, Or.inl rfl⟩
  | some i =>
    dsimp only
    by_cases hc : INDUSTRIES.contains i = true
    · rw [if_pos hc]
      exact ⟨List.mem_of_elem_eq_true hc, Or.inr rfl⟩
    · rw [if_neg hc]
      exact ⟨by decide, Or.inl rfl⟩

/-- Validation of the raw subcategory field against a list of valid
subcategories. -/
theorem validate_subcategory_fact (rs : Option String) (subs : List String) :
    ((match rs with
      | some s => if subs.contains s then s else "Others"
      | none => "Others") ∈ subs ∨
      (match rs with
        | some s => if subs.contains s then s else "Others"
        | none => "Others") = "Others") ∧
    ((match rs with
      | some s => if subs.contains s then s else "Others"
      | none => "Others") = "Others" ∨
      rs = some (match rs with
        | some s => if subs.contains s then s else "Others"
        | none => "Others")) := by
  cases rs with
  | none => exact ⟨Or.inr rfl, Or.inl rfl⟩
  | some s =>
    dsimp only
    by_cases hc : subs.contains s = true
    · rw [if_pos hc]
      exact ⟨Or.inl (List.mem_of_elem_eq_true hc), Or.inr rfl⟩
    · rw [if_neg hc]
      exact ⟨Or.inr rfl, Or.inl rfl⟩

/-- Validation of the raw campaign-type field. -/
theorem validate_campaign_fact (rc : Option String) :
    ((match rc with
      | some c => if CAMPAIGN_TYPES.contains c then c else "Newsletter"
      | none => "Newsletter") ∈ CAMPAIGN_TYPES) ∧
    ((match rc with
      | some c => if CAMPAIGN_TYPES.contains c then c else "Newsletter"
      | none => "Newsletter") = "Newsletter" ∨
      rc = some (match rc with
        | some c => if CAMPAIGN_TYPES.contains c then c else "Newsletter"
        | none => "Newsletter")) := by
  cases rc with
  | none => exact ⟨by decide, Or.inl rfl⟩
  | some c =>
    dsimp only
    by_cases hc : CAMPAIGN_TYPES.contains c = true
    · rw [if_pos hc]
      exact ⟨List.mem_of_elem_eq_true hc, Or.inr rfl⟩
    · rw [if_neg hc]
      exact ⟨by decide, Or.inl rfl⟩

/-- Validation of the raw confidence field: the result lies in [0, 1] and is
either the 0.8 default or the raw value itself. -/
theorem validate_confidence_fact (rq : Option ℚ) :
    (ratZero ≤ (match rq with
      | some c => if c < ratZero ∨ c > conf_1_0 then conf_0_8 else c
      | none => conf_0_8)) ∧
    ((match rq with
      | some c => if c < ratZero ∨ c > conf_1_0 then conf_0_8 else c
      | none => conf_0_8) ≤ conf_1_0) ∧
    ((match rq with
      | some c => if c < ratZero ∨ c > conf_1_0 then conf_0_8 else c
      | none => conf_0_8) = conf_0_8 ∨
      rq = some (match rq with
        | some c => if c < ratZero ∨ c > conf_1_0 then conf_0_8 else c
        | none => conf_0_8)) := by
  cases rq with
  | none => exact ⟨by decide, by decide, Or.inl rfl⟩
  | some c =>
    dsimp only
    by_cases hc : c < ratZero ∨ c > conf_1_0
    · rw [if_pos hc]
      exact ⟨by decide, by decide, Or.inl rfl⟩
    · rw [if_neg hc]
      push_neg at hc
      exact ⟨hc.1, hc.2, Or.inr rfl⟩

/-- C9: every non-null industry produced by `extract_industry` is one of the
17 members of the closed industry enum; a non-null subcategory comes with an
industry and is valid for it (or is "Others"); and every field of an
external-AI response is validated against the closed enums and coerced to
the documented defaults (industry → "General / Department Store",
subcategory → "Others", campaign type → "Newsletter", confidence → 0.8)
rather than trusted as-is, the validated confidence always lying in
[0, 1]. -/
theorem ai_validation_and_closed_enums
    (brand subject preview html : String)
    (db_session : Option (List BrandClassificationEntry)) (use_ai : Bool)
    (aiRaw : Option RawAiResponse) (raw : RawAiResponse) :
    (∀ i, (extract_industry brand subject preview html db_session use_ai
        aiRaw).1.industry = some i → i ∈ INDUSTRIES) ∧
    (∀ c, (extract_industry brand subject preview html db_session use_ai
        aiRaw).1.category = some c →
      ∃ i, (extract_industry brand subject preview html db_session use_ai
          aiRaw).1.industry = some i ∧
        (c ∈ (dictGet i SUBCATEGORIES).getD [] ∨ c = "Others")) ∧
    (classify_brand_with_ai_validate raw).industry ∈ INDUSTRIES ∧
    ((classify_brand_with_ai_validate raw).subcategory ∈
        (dictGet (classify_brand_with_ai_validate raw).industry
          SUBCATEGORIES).getD [] ∨
      (classify_brand_with_ai_validate raw).subcategory = "Others") ∧
    (classify_brand_with_ai_validate raw).campaign_type ∈ CAMPAIGN_TYPES ∧
    ratZero ≤ (classify_brand_with_ai_validate raw).confidence ∧
    (classify_brand_with_ai_validate raw).confidence ≤ conf_1_0 ∧
    ((classify_brand_with_ai_validate raw).industry =
        "General / Department Store" ∨
      raw.industry = some (classify_brand_with_ai_validate raw).industry) ∧
    ((classify_brand_with_ai_validate raw).subcategory = "Others" ∨
      raw.subcategory =
        some (classify_brand_with_ai_validate raw).subcategory) ∧
    ((classify_brand_with_ai_validate raw).campaign_type = "Newsletter" ∨
      raw.campaign_type =
        some (classify_brand_with_ai_validate raw).campaign_type) ∧
    ((classify_brand_with_ai_validate raw).confidence = conf_0_8 ∨
      raw.confidence =
        some (classify_brand_with_ai_validate raw).confidence) := by
  refine ⟨?_, ?_, (validate_industry_fact raw.industry).1,
    (validate_subcategory_fact raw.subcategory _).1,
    (validate_campaign_fact raw.campaign_type).1,
    (validate_confidence_fact raw.confidence).1,
    (validate_confidence_fact raw.confidence).2.1,
    (validate_industry_fact raw.industry).2,
    (validate_subcategory_fact raw.subcategory _).2,
    (validate_campaign_fact raw.campaign_type).2,
    (validate_confidence_fact raw.confidence).2.2⟩
  · intro i hi
    by_cases hb : brand = "" ∨ brand = "Unknown"
    · simp only [extract_industry, if_pos hb] at hi
      exact extract_industry_by_keywords_mem hi
    · rcases hd : dictGet (normalize_brand_name brand) BRAND_INDUSTRY_MAPPING
        with _ | industry
      · rcases hf : fuzzy_match (stripSpecial (normalize_brand_name brand))
          with _ | best
        · cases use_ai with
          | false =>
            simp [extract_industry, hb, hd, hf] at hi
            exact extract_industry_by_keywords_mem hi
          | true =>
            rcases aiRaw with _ | raw2
            · simp [extract_industry, hb, hd, hf] at hi
              exact extract_industry_by_keywords_mem hi
            · simp [extract_industry, hb, hd, hf] at hi
              rw [← hi]
              exact (validate_industry_fact raw2.industry).1
        · simp [extract_industry, hb, hd, hf] at hi
          rw [← hi]
          exact fuzzy_match_mem hf
      · simp [extract_industry, hb, hd] at hi
        rw [← hi]
        rcases dictGet_mem hd with ⟨kv, hm, hv⟩
        rw [← hv]
        exact brand_industry_mapping_values_industries kv hm
  · intro c hc
    by_cases hb : brand = "" ∨ brand = "Unknown"
    · simp only [extract_industry, if_pos hb] at hc
      exact Option.noConfusion hc
    · rcases hd : dictGet (normalize_brand_name brand) BRAND_INDUSTRY_MAPPING
        with _ | industry
      · rcases hf : fuzzy_match (stripSpecial (normalize_brand_name brand))
          with _ | best
        · cases use_ai with
          | false =>
            simp [extract_industry, hb, hd, hf] at hc
          | true =>
            rcases aiRaw with _ | raw2
            · simp [extract_industry, hb, hd, hf] at hc
            · simp [extract_industry, hb, hd, hf] at hc
              refine ⟨(classify_brand_with_ai_validate raw2).industry,
                by simp [extract_industry, hb, hd, hf], ?_⟩
              rw [← hc]
              exact (validate_subcategory_fact raw2.subcategory _).1
        · simp [extract_industry, hb, hd, hf] at hc
      · simp [extract_industry, hb, hd] at hc

/-- Witness for C9: the classifier maps "nykaa" to "Beauty & Personal Care",
which the claim places inside the closed industry enum. -/
theorem ai_validation_and_closed_enums_witness :
    "Beauty & Personal Care" ∈ INDUSTRIES :=
  (ai_validation_and_closed_enums "nykaa" "" "" "" none false none
      ⟨none, none, none, none⟩).1 "Beauty & Personal Care" (by decide)
